import Mathlib

/-!
Verification of the edge-processing pipeline of the agenzia-copy server
(src/server/index.ts, src/server/vite.ts): middleware ordering, rate
limiting, static asset delivery and error handling.

The embedding models the Express application as an ordered list of layers
(the order in which app.use / app.get / app.post install them), with a
small-step interpreter that reproduces Express dispatch: a layer whose
mount matches the request either passes control on, responds, or raises
an error; an error skips forward to the next error-handling layer, and
falls to the framework default handler when none follows.
-/

/-- Request paths are modelled as segment lists; the string form used by
the request logger is recovered by pathStr. -/
abbrev Spath := List String

/-- An inbound HTTP request: method, path segments, client key (the
address used by the rate limiters) and whether the transport is secure
(req.secure behind the trusted proxy, src/server/index.ts:22). -/
structure Req where
  method : String
  segs : Spath
  client : String
  secure : Bool
deriving DecidableEq

/-- Response bodies, distinguished by producing stage. -/
inductive Body
  | empty
  | limiterMsg (success : Bool) (message : String)
  | errorJson (message : String)
  | ctAck
  | fileContent (content : String)
  | htmlContent (content : String)
  | business (tag : String)
  | redirectTo (loc : String)
  | defaultError
deriving DecidableEq

/-- An HTTP response: status, headers in order, body. -/
structure Resp where
  status : Nat
  headers : List (String × String)
  body : Body
deriving DecidableEq

/-- A JavaScript error value as inspected by the terminal error handler
(src/server/index.ts:130-142): optional status, statusCode and message
fields. -/
structure JsErr where
  status : Option Nat
  statusCode : Option Nat
  message : Option String
deriving DecidableEq

/-- Status resolution of the terminal error handler,
src/server/index.ts:132: anyErr.status else anyErr.statusCode else 500. -/
def errStatus (e : JsErr) : Nat :=
  (e.status.getD (e.statusCode.getD 500))

/-- Message resolution of the terminal error handler,
src/server/index.ts:133: anyErr.message else the fixed fallback text. -/
def errMessage (e : JsErr) : String :=
  e.message.getD "Internal Server Error"

/-- Possible actions of an error handler: write a response, or only log
without writing. The second constructor exists to state the specified
headers-already-sent behaviour. -/
inductive EHAction
  | respond (status : Nat) (message : String)
  | logOnly
deriving DecidableEq

/-- The terminal error handler of src/server/index.ts:130-142 as a
function of the error and of whether response headers were already sent.
The source writes res.status(status).json with the resolved message
unconditionally: it contains no res.headersSent branch, so the flag is
ignored. -/
def errorHandlerAction (e : JsErr) (_headersSent : Bool) : EHAction :=
  EHAction.respond (errStatus e) (errMessage e)

/-- Configuration record of express-rate-limit as instantiated in
src/server/index.ts:56-78. -/
structure RateLimitOptions where
  windowMs : Nat
  maxHits : Nat
  msgSuccess : Bool
  msgText : String
  standardHeaders : Bool
  legacyHeaders : Bool
  skipSuccessfulRequests : Bool
deriving DecidableEq

/-- General API limiter options, src/server/index.ts:56-65. -/
def generalLimiterOpts : RateLimitOptions :=
  { windowMs := 15 * 60 * 1000
    maxHits := 100
    msgSuccess := false
    msgText := "Troppi tentativi. Riprova più tardi."
    standardHeaders := true
    legacyHeaders := false
    skipSuccessfulRequests := false }

/-- Admin login limiter options, src/server/index.ts:68-78. -/
def adminLoginLimiterOpts : RateLimitOptions :=
  { windowMs := 15 * 60 * 1000
    maxHits := 5
    msgSuccess := false
    msgText := "Troppi tentativi di login. Riprova tra 15 minuti."
    standardHeaders := true
    legacyHeaders := false
    skipSuccessfulRequests := true }

/-- Per-limiter counters within the current fixed window, keyed by
client address. The two limiters never share state
(spec section 3, Rate Limiter State). -/
structure LimState where
  general : String → Nat
  admin : String → Nat

/-- Increment the counter of one client key. -/
def bump (m : String → Nat) (k : String) : String → Nat :=
  fun q => if q = k then m q + 1 else m q

/-- Decrement the counter of one client key; used by the admin limiter
when skipSuccessfulRequests applies after a successful response. -/
def unbump (m : String → Nat) (k : String) : String → Nat :=
  fun q => if q = k then m q - 1 else m q

/-- Header assignment with overwrite semantics, as res.setHeader: a later
set of the same name replaces the earlier value in place. -/
def setHeader : List (String × String) → String → String → List (String × String)
  | [], k, v => [(k, v)]
  | (k0, v0) :: rest, k, v =>
    if k0 = k then (k, v) :: rest else (k0, v0) :: setHeader rest k v

/-- Lookup of a file by exact relative path in a directory listing. -/
def lookupFile : List (Spath × String) → Spath → Option String
  | [], _ => none
  | (p, c) :: rest, q => if p = q then some c else lookupFile rest q

/-- Express mount matching on path segments: a mount matches every
request whose segment list it prefixes. -/
def mountMatch : Spath → Spath → Bool
  | [], _ => true
  | _ :: _, [] => false
  | m :: ms, s :: ss => if m = s then mountMatch ms ss else false

/-- The string form of a segment path, as req.path. -/
def pathStr (segs : Spath) : String :=
  "/" ++ String.intercalate "/" segs

/-- Base log line of the request logger, src/server/index.ts:106. -/
def baseLine (method p : String) (status duration : Nat) : String :=
  method ++ " " ++ p ++ " " ++ toString status ++ " in " ++ toString duration ++ "ms"

/-- Append the serialized captured JSON body to the log line,
src/server/index.ts:107-113; a serialization failure (stringify returns
none, modelling a thrown JSON.stringify) is swallowed and the base line
is kept. -/
def withJson (line : String) (captured : Option Body)
    (stringify : Body → Option String) : String :=
  match captured with
  | none => line
  | some b =>
    match stringify b with
    | none => line
    | some s => line ++ " :: " ++ s

/-- Log line truncation, src/server/index.ts:114: lines longer than 300
characters are cut to the first 299 characters plus an ellipsis. -/
def truncateLine (line : String) : String :=
  if line.length > 300 then (line.take 299).push '…' else line

/-- The complete log line produced for one finished API response. -/
def mkLogLine (method p : String) (status duration : Nat)
    (captured : Option Body) (stringify : Body → Option String) : String :=
  truncateLine (withJson (baseLine method p status duration) captured stringify)

/-- The res.json wrapper installed by the request logger,
src/server/index.ts:97-101: it records the body and forwards the very
same body to the original sender, returning its result. -/
def wrapJson (orig : Body → Resp) (b : Body) : Resp × Option Body :=
  (orig b, some b)

/-- Whether a body is emitted through res.json and hence captured by the
logger wrapper. -/
def isJsonBody : Body → Bool
  | Body.limiterMsg _ _ => true
  | Body.errorJson _ => true
  | Body.ctAck => true
  | Body.business _ => true
  | _ => false

/-- Cache busting rewrite of the dev HTML template,
src/server/vite.ts:67-71: the main.tsx script reference gains a version
query parameter. -/
def cacheBust (nid : String) (t : String) : String :=
  t.replace "src=\"/src/main.tsx\"" ("src=\"/src/main.tsx?v=" ++ nid ++ "\"")

/-- The kinds of pipeline layers installed by src/server/index.ts and by
setupVite / serveStatic in src/server/vite.ts and its variants. -/
inductive LayerKind
  | forceHTTPS
  | corsStage
  | securityHeaders
  | httpsSecurityHeaders
  | ctReportRoute
  | parseJsonBody
  | parseUrlencoded
  | generalLimiter
  | adminLoginLimiter
  | uploadsStatic
  | requestLogger
  | businessRoutes
  | errorHandler
  | assetsStatic
  | rootStatic
  | spaFallback
  | viteMiddlewares
  | devCatchAll
deriving DecidableEq

/-- Mount path of each layer as installed by the source: the limiters at
/api and /api/admin/login (src/server/index.ts:81-82), uploads at
/uploads (line 87), the production assets handler at /assets
(src/server/index.ts:269-276 variant), everything else at application
level. -/
def mountOf : LayerKind → Spath
  | LayerKind.generalLimiter => ["api"]
  | LayerKind.adminLoginLimiter => ["api", "admin", "login"]
  | LayerKind.uploadsStatic => ["uploads"]
  | LayerKind.assetsStatic => ["assets"]
  | _ => []

/-- Express dispatch test for one layer: routes match method and exact
path, the SPA catch-all matches every GET, error middleware is skipped
in normal dispatch, and mounted middleware matches by path prefix. -/
def layerMatches (k : LayerKind) (req : Req) : Bool :=
  match k with
  | LayerKind.ctReportRoute =>
    decide (req.method = "POST") && decide (req.segs = ["api", "security", "ct-report"])
  | LayerKind.spaFallback => decide (req.method = "GET")
  | LayerKind.errorHandler => false
  | k => mountMatch (mountOf k) req.segs

/-- Action of a business route handler registered by registerRoutes:
respond, or raise an error towards the error middleware. -/
inductive BizAct
  | respond (status : Nat) (body : Body)
  | raise (e : JsErr)

/-- External collaborators and ambient inputs of one request processing
run. The business routes (registerRoutes), the Vite dev middleware, the
HTML transform and JSON.stringify live outside src/server and are kept
abstract; file systems are explicit listings. -/
structure Env where
  business : Req → Option BizAct
  viteMw : Req → Option Resp
  templateRead : Except JsErr String
  transform : String → String → Except JsErr String
  nanoidv : String
  stringify : Body → Option String
  durationMs : Nat
  rootFiles : List (Spath × String)
  uploadFiles : List (Spath × String)

/-- Mutable per-request context threaded through the pipeline. -/
structure Ctx where
  st : LimState
  headers : List (String × String)
  adminHit : Bool

/-- Result of executing one layer. -/
inductive StepOut
  | next (c : Ctx)
  | respond (c : Ctx) (status : Nat) (b : Body)
  | err (c : Ctx) (e : JsErr)

/-- Rate limit headers written by express-rate-limit on every evaluated
request: standard RateLimit headers when standardHeaders is set, legacy
X-RateLimit headers when legacyHeaders is set (both limiters of the
source enable only the former, src/server/index.ts:63-64 and 75-76). -/
def limiterHeaders (opts : RateLimitOptions) (hits : Nat)
    (hs : List (String × String)) : List (String × String) :=
  let hs1 :=
    if opts.standardHeaders then
      setHeader (setHeader hs "RateLimit-Limit" (toString opts.maxHits))
        "RateLimit-Remaining" (toString (opts.maxHits - hits))
    else hs
  if opts.legacyHeaders then
    setHeader (setHeader hs1 "X-RateLimit-Limit" (toString opts.maxHits))
      "X-RateLimit-Remaining" (toString (opts.maxHits - hits))
  else hs1

/-- One express-rate-limit evaluation over the general counter: count
the hit, write the headers, and reject with the configured message once
the count exceeds the maximum within the window. -/
def generalLimiterStep (req : Req) (c : Ctx) : StepOut :=
  let n := c.st.general req.client + 1
  let c2 : Ctx :=
    { c with
      st := { c.st with general := bump c.st.general req.client }
      headers := limiterHeaders generalLimiterOpts n c.headers }
  if n > generalLimiterOpts.maxHits then
    StepOut.respond c2 429 (Body.limiterMsg generalLimiterOpts.msgSuccess generalLimiterOpts.msgText)
  else StepOut.next c2

/-- One express-rate-limit evaluation over the admin counter; adminHit
records that the count must be undone after a successful response
(skipSuccessfulRequests, src/server/index.ts:77). -/
def adminLimiterStep (req : Req) (c : Ctx) : StepOut :=
  let n := c.st.admin req.client + 1
  let c2 : Ctx :=
    { c with
      st := { c.st with admin := bump c.st.admin req.client }
      headers := limiterHeaders adminLoginLimiterOpts n c.headers
      adminHit := true }
  if n > adminLoginLimiterOpts.maxHits then
    StepOut.respond c2 429 (Body.limiterMsg adminLoginLimiterOpts.msgSuccess adminLoginLimiterOpts.msgText)
  else StepOut.next c2

/-- Execute one matched layer. Modelled from the source where the layer
body is in src/server (limiters configuration, static mounts, logger,
error handler, dev catch-all); modelled from the spec for the external
collaborators: forceHTTPS redirects insecure production traffic
(spec 4.1.1), the CORS and header stages never terminate the pipeline
(spec 4.1.2-3), the CT report endpoint always acknowledges (spec 4.1.4),
and the Vite middleware either serves or passes on. -/
def stepLayer (env : Env) (req : Req) (k : LayerKind) (c : Ctx) : StepOut :=
  match k with
  | LayerKind.forceHTTPS =>
    if req.secure then StepOut.next c
    else StepOut.respond c 301 (Body.redirectTo (pathStr req.segs))
  | LayerKind.corsStage => StepOut.next c
  | LayerKind.securityHeaders => StepOut.next c
  | LayerKind.httpsSecurityHeaders => StepOut.next c
  | LayerKind.ctReportRoute => StepOut.respond c 200 Body.ctAck
  | LayerKind.parseJsonBody => StepOut.next c
  | LayerKind.parseUrlencoded => StepOut.next c
  | LayerKind.generalLimiter => generalLimiterStep req c
  | LayerKind.adminLoginLimiter => adminLimiterStep req c
  | LayerKind.uploadsStatic =>
    if req.method = "GET" then
      match lookupFile env.uploadFiles (req.segs.drop 1) with
      | some content => StepOut.respond c 200 (Body.fileContent content)
      | none => StepOut.next c
    else StepOut.next c
  | LayerKind.requestLogger => StepOut.next c
  | LayerKind.businessRoutes =>
    match env.business req with
    | none => StepOut.next c
    | some (BizAct.respond s b) => StepOut.respond c s b
    | some (BizAct.raise e) => StepOut.err c e
  | LayerKind.errorHandler => StepOut.next c
  | LayerKind.assetsStatic =>
    if req.method = "GET" then
      match lookupFile env.rootFiles ("assets" :: req.segs.drop 1) with
      | some content =>
        StepOut.respond
          { c with headers := setHeader c.headers "Cache-Control" "public, max-age=31536000, immutable" }
          200 (Body.fileContent content)
      | none => StepOut.err c ⟨some 404, none, some "Not Found"⟩
    else StepOut.err c ⟨some 405, none, some "Method Not Allowed"⟩
  | LayerKind.rootStatic =>
    if req.method = "GET" then
      match lookupFile env.rootFiles req.segs with
      | some content =>
        StepOut.respond
          { c with headers := setHeader c.headers "Cache-Control" "public, max-age=0" }
          200 (Body.fileContent content)
      | none => StepOut.next c
    else StepOut.next c
  | LayerKind.spaFallback =>
    match lookupFile env.rootFiles ["index.html"] with
    | some content => StepOut.respond c 200 (Body.fileContent content)
    | none => StepOut.err c ⟨some 404, none, some "Not Found"⟩
  | LayerKind.viteMiddlewares =>
    match env.viteMw req with
    | some r => StepOut.respond { c with headers := c.headers ++ r.headers } r.status r.body
    | none => StepOut.next c
  | LayerKind.devCatchAll =>
    match env.templateRead with
    | Except.error e => StepOut.err c e
    | Except.ok t =>
      match env.transform (pathStr req.segs) (cacheBust env.nanoidv t) with
      | Except.error e => StepOut.err c e
      | Except.ok html =>
        StepOut.respond
          { c with headers := setHeader c.headers "Content-Type" "text/html" }
          200 (Body.htmlContent html)

/-- Error dispatch: scan forward for the next error-handling layer; the
terminal handler responds per src/server/index.ts:130-142; with no such
layer ahead, the framework default handler answers with the error status
and its own default body. -/
def runErr (env : Env) (req : Req) :
    List LayerKind → Ctx → JsErr → Ctx × Resp × List LayerKind
  | [], c, e => (c, ⟨errStatus e, c.headers, Body.defaultError⟩, [])
  | k :: rest, c, e =>
    if k = LayerKind.errorHandler then
      (c, ⟨errStatus e, c.headers, Body.errorJson (errMessage e)⟩, [LayerKind.errorHandler])
    else runErr env req rest c e

/-- Normal dispatch over the remaining layer list, returning the final
context, the response, and the trace of layers that actually executed. -/
def runFrom (env : Env) (req : Req) :
    List LayerKind → Ctx → Ctx × Resp × List LayerKind
  | [], c => (c, ⟨404, c.headers, Body.defaultError⟩, [])
  | k :: rest, c =>
    if layerMatches k req then
      match stepLayer env req k c with
      | StepOut.next c2 =>
        let out := runFrom env req rest c2
        (out.1, out.2.1, k :: out.2.2)
      | StepOut.respond c2 s b => (c2, ⟨s, c2.headers, b⟩, [k])
      | StepOut.err c2 e =>
        let out := runErr env req rest c2 e
        (out.1, out.2.1, k :: out.2.2)
    else runFrom env req rest c

/-- The JavaScript startsWith test of src/server/index.ts:104, as a
character prefix check on the path string. -/
def strStartsWith (s p : String) : Bool :=
  p.data.isPrefixOf s.data

/-- Outcome of processing one request end to end. -/
structure ProcOut where
  st : LimState
  resp : Resp
  trace : List LayerKind
  logs : List String

/-- Process one request through a stack: run the layers, then apply the
admin limiter skipSuccessfulRequests undo for successful responses, and
emit the request logger line when the logger ran and the path string
starts with /api (src/server/index.ts:103-117). -/
def processReq (env : Env) (stack : List LayerKind) (req : Req) (st : LimState) : ProcOut :=
  let out := runFrom env req stack ⟨st, [], false⟩
  let c := out.1
  let resp := out.2.1
  let trace := out.2.2
  let stFin :=
    if c.adminHit && decide (resp.status < 400) then
      { c.st with admin := unbump c.st.admin req.client }
    else c.st
  let captured :=
    if trace.contains LayerKind.requestLogger && isJsonBody resp.body then
      some resp.body
    else none
  let logs :=
    if trace.contains LayerKind.requestLogger && strStartsWith (pathStr req.segs) "/api" then
      [mkLogLine req.method (pathStr req.segs) resp.status env.durationMs captured env.stringify]
    else []
  ⟨stFin, resp, trace, logs⟩

/-- Iterate the same request through the pipeline, threading only the
limiter state; all iterations fall within one limiter window. -/
def processN (env : Env) (stack : List LayerKind) (req : Req) : Nat → LimState → LimState
  | 0, st => st
  | n + 1, st => processN env stack req n (processReq env stack req st).st

/-- The production pipeline in installation order: module level mounts
of src/server/index.ts:31-120, then registerRoutes, the terminal error
handler (line 130), and the serveStatic mounts of the production branch
(line 149; handler bodies from the variant at src/server/index.ts:269-284). -/
def prodStack : List LayerKind :=
  [LayerKind.forceHTTPS, LayerKind.corsStage, LayerKind.securityHeaders,
   LayerKind.httpsSecurityHeaders, LayerKind.ctReportRoute, LayerKind.parseJsonBody,
   LayerKind.parseUrlencoded, LayerKind.generalLimiter, LayerKind.adminLoginLimiter,
   LayerKind.uploadsStatic, LayerKind.requestLogger, LayerKind.businessRoutes,
   LayerKind.errorHandler, LayerKind.assetsStatic, LayerKind.rootStatic,
   LayerKind.spaFallback]

/-- The development pipeline: forceHTTPS is not installed
(src/server/index.ts:31-33), and setupVite mounts the Vite middleware
and the template catch-all after the error handler
(src/server/index.ts:145-146, src/server/vite.ts:57-79). -/
def devStack : List LayerKind :=
  [LayerKind.corsStage, LayerKind.securityHeaders, LayerKind.httpsSecurityHeaders,
   LayerKind.ctReportRoute, LayerKind.parseJsonBody, LayerKind.parseUrlencoded,
   LayerKind.generalLimiter, LayerKind.adminLoginLimiter, LayerKind.uploadsStatic,
   LayerKind.requestLogger, LayerKind.businessRoutes, LayerKind.errorHandler,
   LayerKind.viteMiddlewares, LayerKind.devCatchAll]

/-- The production pipeline with the request logger removed, used to
state that logging is a side channel. -/
def prodStackNoLog : List LayerKind :=
  [LayerKind.forceHTTPS, LayerKind.corsStage, LayerKind.securityHeaders,
   LayerKind.httpsSecurityHeaders, LayerKind.ctReportRoute, LayerKind.parseJsonBody,
   LayerKind.parseUrlencoded, LayerKind.generalLimiter, LayerKind.adminLoginLimiter,
   LayerKind.uploadsStatic, LayerKind.businessRoutes,
   LayerKind.errorHandler, LayerKind.assetsStatic, LayerKind.rootStatic,
   LayerKind.spaFallback]

/-- The development pipeline with the request logger removed. -/
def devStackNoLog : List LayerKind :=
  [LayerKind.corsStage, LayerKind.securityHeaders, LayerKind.httpsSecurityHeaders,
   LayerKind.ctReportRoute, LayerKind.parseJsonBody, LayerKind.parseUrlencoded,
   LayerKind.generalLimiter, LayerKind.adminLoginLimiter, LayerKind.uploadsStatic,
   LayerKind.businessRoutes, LayerKind.errorHandler,
   LayerKind.viteMiddlewares, LayerKind.devCatchAll]

/-- Index of the first occurrence of a layer kind in a stack. -/
def idxOf (k : LayerKind) : List LayerKind → Nat
  | [] => 0
  | k0 :: rest => if k0 = k then 0 else idxOf k rest + 1

/-- Candidate static root directories probed by the serveStatic variant
at src/server/index.ts:249-255: the FRONTEND_DIR override first when
set, then the conventional build output locations. -/
def candidates (frontendDir : Option Spath) (dirname cwd : Spath) : List Spath :=
  (match frontendDir with
   | some d => [d]
   | none => []) ++
  [dirname ++ ["public"], cwd ++ ["dist", "public"],
   cwd ++ ["public"], cwd ++ ["client", "dist"]]

/-- Static root resolution, src/server/index.ts:257-259: the first
candidate whose index.html exists on the file system (given as the set
of existing paths) becomes the resolved root. -/
def resolveDistPath (fsys : List Spath) (frontendDir : Option Spath)
    (dirname cwd : Spath) : Option Spath :=
  (candidates frontendDir dirname cwd).find? fun p => decide ((p ++ ["index.html"]) ∈ fsys)

/-- Static root of the simpler serveStatic variant actually imported by
the bootstrap (src/server/vite.ts:85-87): the FRONTEND_DIR override when
set, otherwise the public directory next to the bundle; no probing of
further candidates. -/
def distPathSimple (frontendDir : Option Spath) (dirname : Spath) : Spath :=
  match frontendDir with
  | some d => d
  | none => dirname ++ ["public"]

/-- Outcome of the production bootstrap. -/
inductive BootResult
  | listening (dist : Spath) (port : Nat)
  | exitedWith (code : Nat)
deriving DecidableEq

/-- Production bootstrap with the candidate-probing serveStatic of
src/server/index.ts:247-285: serveStatic runs exactly once inside the
async IIFE (src/server/index.ts:149) before server.listen
(line 156); a resolution failure throws, the IIFE catch logs and calls
process.exit(1) (lines 159-163), so listen is never reached. -/
def bootstrapProd (fsys : List Spath) (frontendDir : Option Spath)
    (dirname cwd : Spath) (port : Nat) : BootResult :=
  match resolveDistPath fsys frontendDir dirname cwd with
  | some d => BootResult.listening d port
  | none => BootResult.exitedWith 1

/-- Production bootstrap with the simpler serveStatic variant of
src/server/vite.ts:84-107: the single computed root must exist as a
directory, otherwise the thrown error reaches the bootstrap catch and
the process exits with code 1 before listen. -/
def bootstrapProdSimple (fsys : List Spath) (frontendDir : Option Spath)
    (dirname : Spath) (port : Nat) : BootResult :=
  if distPathSimple frontendDir dirname ∈ fsys then
    BootResult.listening (distPathSimple frontendDir dirname) port
  else BootResult.exitedWith 1

/-- Context carried by a step outcome. -/
def ctxOf : StepOut → Ctx
  | StepOut.next c => c
  | StepOut.respond c _ _ => c
  | StepOut.err c _ => c

theorem runFrom_skip (env : Env) (req : Req) (k : LayerKind) (L : List LayerKind)
    (c : Ctx) (h : layerMatches k req = false) :
    runFrom env req (k :: L) c = runFrom env req L c := by
  simp [runFrom, h]

theorem runFrom_next (env : Env) (req : Req) (k : LayerKind) (L : List LayerKind)
    (c c2 : Ctx) (h : layerMatches k req = true)
    (hs : stepLayer env req k c = StepOut.next c2) :
    runFrom env req (k :: L) c =
      ((runFrom env req L c2).1, (runFrom env req L c2).2.1,
        k :: (runFrom env req L c2).2.2) := by
  simp [runFrom, h, hs]

theorem runFrom_respond (env : Env) (req : Req) (k : LayerKind) (L : List LayerKind)
    (c c2 : Ctx) (s : Nat) (b : Body) (h : layerMatches k req = true)
    (hs : stepLayer env req k c = StepOut.respond c2 s b) :
    runFrom env req (k :: L) c = (c2, ⟨s, c2.headers, b⟩, [k]) := by
  simp [runFrom, h, hs]

theorem runFrom_err (env : Env) (req : Req) (k : LayerKind) (L : List LayerKind)
    (c c2 : Ctx) (e : JsErr) (h : layerMatches k req = true)
    (hs : stepLayer env req k c = StepOut.err c2 e) :
    runFrom env req (k :: L) c =
      ((runErr env req L c2 e).1, (runErr env req L c2 e).2.1,
        k :: (runErr env req L c2 e).2.2) := by
  simp [runFrom, h, hs]

theorem runErr_ctx (env : Env) (req : Req) (L : List LayerKind) (c : Ctx) (e : JsErr) :
    (runErr env req L c e).1 = c := by
  induction L with
  | nil => rfl
  | cons k rest ih =>
    simp only [runErr]
    split
    · rfl
    · exact ih

theorem runErr_trace (env : Env) (req : Req) (L : List LayerKind) (c : Ctx) (e : JsErr) :
    ∀ k, k ∈ (runErr env req L c e).2.2 → k = LayerKind.errorHandler := by
  induction L with
  | nil => intro k h; simp [runErr] at h
  | cons k0 rest ih =>
    intro k h
    simp only [runErr] at h
    split at h
    · simpa using h
    · exact ih k h

theorem stepLayer_frame (env : Env) (req : Req) (k : LayerKind) (c : Ctx)
    (hg : k ≠ LayerKind.generalLimiter) (ha : k ≠ LayerKind.adminLoginLimiter) :
    (ctxOf (stepLayer env req k c)).st = c.st ∧
      (ctxOf (stepLayer env req k c)).adminHit = c.adminHit := by
  rcases hstep : stepLayer env req k c with c2 | ⟨c2, s, b⟩ | ⟨c2, e⟩ <;>
    simp only [ctxOf] <;>
    cases k <;>
    first
      | exact absurd rfl hg
      | exact absurd rfl ha
      | (simp only [stepLayer] at hstep <;>
          (repeat' split at hstep) <;>
          (try cases hstep) <;>
          simp_all)

theorem stepLayer_general (env : Env) (req : Req) (k : LayerKind) (c : Ctx)
    (hg : k ≠ LayerKind.generalLimiter) :
    (ctxOf (stepLayer env req k c)).st.general = c.st.general := by
  rcases hstep : stepLayer env req k c with c2 | ⟨c2, s, b⟩ | ⟨c2, e⟩ <;>
    simp only [ctxOf] <;>
    cases k <;>
    first
      | exact absurd rfl hg
      | (simp only [stepLayer, adminLimiterStep] at hstep <;>
          (repeat' split at hstep) <;>
          (try cases hstep) <;>
          simp_all [bump])

theorem runFrom_st_frame (env : Env) (req : Req)
    (hg : layerMatches LayerKind.generalLimiter req = false)
    (ha : layerMatches LayerKind.adminLoginLimiter req = false) :
    ∀ (L : List LayerKind) (c : Ctx),
      (runFrom env req L c).1.st = c.st ∧
        (runFrom env req L c).1.adminHit = c.adminHit := by
  intro L
  induction L with
  | nil => intro c; exact ⟨rfl, rfl⟩
  | cons a rest ih =>
    intro c
    by_cases hm : layerMatches a req = true
    · have hag : a ≠ LayerKind.generalLimiter := by
        rintro rfl; rw [hg] at hm; cases hm
      have haa : a ≠ LayerKind.adminLoginLimiter := by
        rintro rfl; rw [ha] at hm; cases hm
      have hfr := stepLayer_frame env req a c hag haa
      rcases hstep : stepLayer env req a c with c2 | ⟨c2, s, b⟩ | ⟨c2, e⟩
      · rw [hstep] at hfr
        rw [runFrom_next env req a rest c c2 hm hstep]
        simp only [ctxOf] at hfr
        obtain ⟨h1, h2⟩ := ih c2
        exact ⟨h1.trans hfr.1, h2.trans hfr.2⟩
      · rw [hstep] at hfr
        rw [runFrom_respond env req a rest c c2 s b hm hstep]
        simpa [ctxOf] using hfr
      · rw [hstep] at hfr
        rw [runFrom_err env req a rest c c2 e hm hstep]
        rw [runErr_ctx]
        simpa [ctxOf] using hfr
    · rw [runFrom_skip env req a rest c (by simpa using hm)]
      exact ih c

theorem runFrom_general_frame (env : Env) (req : Req) :
    ∀ (L : List LayerKind), LayerKind.generalLimiter ∉ L →
      ∀ (c : Ctx), (runFrom env req L c).1.st.general = c.st.general := by
  intro L
  induction L with
  | nil => intro _ c; rfl
  | cons a rest ih =>
    intro hno c
    have hag : a ≠ LayerKind.generalLimiter := fun h => hno (h ▸ List.mem_cons_self a rest)
    have hrest : LayerKind.generalLimiter ∉ rest := fun h => hno (List.mem_cons_of_mem a h)
    have hfr := stepLayer_general env req a c hag
    by_cases hm : layerMatches a req = true
    · rcases hstep : stepLayer env req a c with c2 | ⟨c2, s, b⟩ | ⟨c2, e⟩
      · rw [hstep] at hfr
        rw [runFrom_next env req a rest c c2 hm hstep]
        simp only [ctxOf] at hfr
        exact (ih hrest c2).trans hfr
      · rw [hstep] at hfr
        rw [runFrom_respond env req a rest c c2 s b hm hstep]
        simpa [ctxOf] using hfr
      · rw [hstep] at hfr
        rw [runFrom_err env req a rest c c2 e hm hstep]
        rw [runErr_ctx]
        simpa [ctxOf] using hfr
    · rw [runFrom_skip env req a rest c (by simpa using hm)]
      exact ih hrest c

theorem runFrom_trace_mem (env : Env) (req : Req) :
    ∀ (L : List LayerKind) (c : Ctx) (k : LayerKind),
      k ∈ (runFrom env req L c).2.2 →
        k = LayerKind.errorHandler ∨ layerMatches k req = true := by
  intro L
  induction L with
  | nil => intro c k h; simp [runFrom] at h
  | cons a rest ih =>
    intro c k h
    by_cases hm : layerMatches a req = true
    · rcases hstep : stepLayer env req a c with c2 | ⟨c2, s, b⟩ | ⟨c2, e⟩
      · rw [runFrom_next env req a rest c c2 hm hstep] at h
        rcases List.mem_cons.mp h with rfl | h2
        · exact Or.inr hm
        · exact ih c2 k h2
      · rw [runFrom_respond env req a rest c c2 s b hm hstep] at h
        rcases List.mem_cons.mp h with rfl | h2
        · exact Or.inr hm
        · simp at h2
      · rw [runFrom_err env req a rest c c2 e hm hstep] at h
        rcases List.mem_cons.mp h with rfl | h2
        · exact Or.inr hm
        · exact Or.inl (runErr_trace env req rest c2 e k h2)
    · rw [runFrom_skip env req a rest c (by simpa using hm)] at h
      exact ih c k h

theorem runErr_drop (env : Env) (req : Req) :
    ∀ (A B : List LayerKind) (c : Ctx) (e : JsErr),
      runErr env req (A ++ LayerKind.requestLogger :: B) c e =
        runErr env req (A ++ B) c e := by
  intro A
  induction A with
  | nil => intro B c e; simp [runErr]
  | cons a rest ih =>
    intro B c e
    simp only [List.cons_append, runErr]
    split
    · rfl
    · exact ih B c e

theorem runFrom_drop (env : Env) (req : Req) :
    ∀ (A B : List LayerKind) (c : Ctx),
      ((runFrom env req (A ++ LayerKind.requestLogger :: B) c).1 =
        (runFrom env req (A ++ B) c).1) ∧
      ((runFrom env req (A ++ LayerKind.requestLogger :: B) c).2.1 =
        (runFrom env req (A ++ B) c).2.1) := by
  intro A
  induction A with
  | nil =>
    intro B c
    have hm : layerMatches LayerKind.requestLogger req = true := rfl
    have hs : stepLayer env req LayerKind.requestLogger c = StepOut.next c := rfl
    rw [List.nil_append, List.nil_append,
      runFrom_next env req LayerKind.requestLogger B c c hm hs]
    exact ⟨rfl, rfl⟩
  | cons a rest ih =>
    intro B c
    by_cases hm : layerMatches a req = true
    · rcases hstep : stepLayer env req a c with c2 | ⟨c2, s, b⟩ | ⟨c2, e⟩
      · rw [List.cons_append, List.cons_append,
          runFrom_next env req a (rest ++ LayerKind.requestLogger :: B) c c2 hm hstep,
          runFrom_next env req a (rest ++ B) c c2 hm hstep]
        exact ⟨(ih B c2).1, (ih B c2).2⟩
      · rw [List.cons_append, List.cons_append,
          runFrom_respond env req a (rest ++ LayerKind.requestLogger :: B) c c2 s b hm hstep,
          runFrom_respond env req a (rest ++ B) c c2 s b hm hstep]
        exact ⟨rfl, rfl⟩
      · rw [List.cons_append, List.cons_append,
          runFrom_err env req a (rest ++ LayerKind.requestLogger :: B) c c2 e hm hstep,
          runFrom_err env req a (rest ++ B) c c2 e hm hstep,
          runErr_drop env req rest B c2 e]
        exact ⟨rfl, rfl⟩
    · rw [List.cons_append, List.cons_append,
        runFrom_skip env req a (rest ++ LayerKind.requestLogger :: B) c (by simpa using hm),
        runFrom_skip env req a (rest ++ B) c (by simpa using hm)]
      exact ih B c

/-- The production pipeline after the body parsers. -/
def prodTail : List LayerKind :=
  [LayerKind.generalLimiter, LayerKind.adminLoginLimiter, LayerKind.uploadsStatic,
   LayerKind.requestLogger, LayerKind.businessRoutes, LayerKind.errorHandler,
   LayerKind.assetsStatic, LayerKind.rootStatic, LayerKind.spaFallback]

/-- The development pipeline after the body parsers. -/
def devTail : List LayerKind :=
  [LayerKind.generalLimiter, LayerKind.adminLoginLimiter, LayerKind.uploadsStatic,
   LayerKind.requestLogger, LayerKind.businessRoutes, LayerKind.errorHandler,
   LayerKind.viteMiddlewares, LayerKind.devCatchAll]

theorem runFrom_prod_pre (env : Env) (req : Req) (c : Ctx) (hsec : req.secure = true)
    (hct : layerMatches LayerKind.ctReportRoute req = false) :
    runFrom env req prodStack c =
      ((runFrom env req prodTail c).1, (runFrom env req prodTail c).2.1,
        LayerKind.forceHTTPS :: LayerKind.corsStage :: LayerKind.securityHeaders ::
          LayerKind.httpsSecurityHeaders :: LayerKind.parseJsonBody ::
          LayerKind.parseUrlencoded :: (runFrom env req prodTail c).2.2) := by
  have h1 : stepLayer env req LayerKind.forceHTTPS c = StepOut.next c := by
    simp [stepLayer, hsec]
  simp only [prodStack]
  rw [runFrom_next env req LayerKind.forceHTTPS _ c c rfl h1,
    runFrom_next env req LayerKind.corsStage _ c c rfl rfl,
    runFrom_next env req LayerKind.securityHeaders _ c c rfl rfl,
    runFrom_next env req LayerKind.httpsSecurityHeaders _ c c rfl rfl,
    runFrom_skip env req LayerKind.ctReportRoute _ c hct,
    runFrom_next env req LayerKind.parseJsonBody _ c c rfl rfl,
    runFrom_next env req LayerKind.parseUrlencoded _ c c rfl rfl]
  simp [prodTail]

theorem runFrom_dev_pre (env : Env) (req : Req) (c : Ctx)
    (hct : layerMatches LayerKind.ctReportRoute req = false) :
    runFrom env req devStack c =
      ((runFrom env req devTail c).1, (runFrom env req devTail c).2.1,
        LayerKind.corsStage :: LayerKind.securityHeaders ::
          LayerKind.httpsSecurityHeaders :: LayerKind.parseJsonBody ::
          LayerKind.parseUrlencoded :: (runFrom env req devTail c).2.2) := by
  simp only [devStack]
  rw [runFrom_next env req LayerKind.corsStage _ c c rfl rfl,
    runFrom_next env req LayerKind.securityHeaders _ c c rfl rfl,
    runFrom_next env req LayerKind.httpsSecurityHeaders _ c c rfl rfl,
    runFrom_skip env req LayerKind.ctReportRoute _ c hct,
    runFrom_next env req LayerKind.parseJsonBody _ c c rfl rfl,
    runFrom_next env req LayerKind.parseUrlencoded _ c c rfl rfl]
  simp [devTail]

/-- A concrete environment used to instantiate universally quantified
theorems: no business route answers, the template and transform succeed,
and the build output holds an index and one bundled asset. -/
def baseEnv : Env :=
  { business := fun _ => none
    viteMw := fun _ => none
    templateRead := Except.ok "<html><head></head><body></body></html>"
    transform := fun _ t => Except.ok t
    nanoidv := "V1StGXR8Z5"
    stringify := fun _ => some "serialized"
    durationMs := 5
    rootFiles := [(["index.html"], "INDEXHTML"), (["assets", "app.js"], "APPJS")]
    uploadFiles := [(["pic.png"], "PNGBYTES")] }

/-- The all-zero limiter state: a fresh window with no recorded hits. -/
def zeroSt : LimState := ⟨fun _ => 0, fun _ => 0⟩

/-- The canonical CT violation report request of one client. -/
def ctReq (client : String) : Req :=
  ⟨"POST", ["api", "security", "ct-report"], client, true⟩

/-- C10: a POST to /api/security/ct-report is answered by the route that
src/server/index.ts:45 registers before either limiter mount
(lines 81-82): in both modes the request terminates at the CT route, the
limiters never execute, no counter moves, and the route sits strictly
before the general limiter in the installation order. -/
theorem c10_ct_report_before_limiters (env : Env) (st : LimState) (client : String) :
    processReq env prodStack (ctReq client) st =
      ⟨st, ⟨200, [], Body.ctAck⟩,
        [LayerKind.forceHTTPS, LayerKind.corsStage, LayerKind.securityHeaders,
         LayerKind.httpsSecurityHeaders, LayerKind.ctReportRoute], []⟩ ∧
    processReq env devStack (ctReq client) st =
      ⟨st, ⟨200, [], Body.ctAck⟩,
        [LayerKind.corsStage, LayerKind.securityHeaders,
         LayerKind.httpsSecurityHeaders, LayerKind.ctReportRoute], []⟩ ∧
    LayerKind.generalLimiter ∉ (processReq env prodStack (ctReq client) st).trace ∧
    LayerKind.adminLoginLimiter ∉ (processReq env prodStack (ctReq client) st).trace ∧
    (processReq env prodStack (ctReq client) st).st.general client = st.general client ∧
    (processReq env prodStack (ctReq client) st).st.admin client = st.admin client ∧
    idxOf LayerKind.ctReportRoute prodStack < idxOf LayerKind.generalLimiter prodStack := by
  refine ⟨rfl, rfl, ?_, ?_, rfl, rfl, by decide⟩
  · show LayerKind.generalLimiter ∉
      [LayerKind.forceHTTPS, LayerKind.corsStage, LayerKind.securityHeaders,
       LayerKind.httpsSecurityHeaders, LayerKind.ctReportRoute]
    decide
  · show LayerKind.adminLoginLimiter ∉
      [LayerKind.forceHTTPS, LayerKind.corsStage, LayerKind.securityHeaders,
       LayerKind.httpsSecurityHeaders, LayerKind.ctReportRoute]
    decide

theorem processReq_trace_eq (env : Env) (stack : List LayerKind) (req : Req) (st : LimState) :
    (processReq env stack req st).trace = (runFrom env req stack ⟨st, [], false⟩).2.2 := rfl

theorem processReq_resp_eq (env : Env) (stack : List LayerKind) (req : Req) (st : LimState) :
    (processReq env stack req st).resp = (runFrom env req stack ⟨st, [], false⟩).2.1 := rfl

theorem processReq_st_frame (env : Env) (stack : List LayerKind) (req : Req) (st : LimState)
    (hg : layerMatches LayerKind.generalLimiter req = false)
    (ha : layerMatches LayerKind.adminLoginLimiter req = false) :
    (processReq env stack req st).st = st := by
  have h := runFrom_st_frame env req hg ha stack ⟨st, [], false⟩
  simp only [processReq]
  rw [h.2]
  simpa using h.1

theorem processReq_no_limiter_trace (env : Env) (stack : List LayerKind) (req : Req)
    (st : LimState)
    (hg : layerMatches LayerKind.generalLimiter req = false)
    (ha : layerMatches LayerKind.adminLoginLimiter req = false) :
    LayerKind.generalLimiter ∉ (processReq env stack req st).trace ∧
      LayerKind.adminLoginLimiter ∉ (processReq env stack req st).trace := by
  constructor
  · intro h
    rw [processReq_trace_eq] at h
    rcases runFrom_trace_mem env req stack ⟨st, [], false⟩ _ h with h2 | h2
    · cases h2
    · rw [hg] at h2; cases h2
  · intro h
    rw [processReq_trace_eq] at h
    rcases runFrom_trace_mem env req stack ⟨st, [], false⟩ _ h with h2 | h2
    · cases h2
    · rw [ha] at h2; cases h2

/-- C1 counterexample: in production a request fully answered by the
assets static handler has nevertheless traversed the HTTPS forcing, the
CORS stage and the security header stage, and the assets handler sits
after the CORS stage in the installation order, contradicting the
claimed static-first mounting. -/
theorem c1_counterexample :
    (processReq baseEnv prodStack ⟨"GET", ["assets", "app.js"], "203.0.113.7", true⟩ zeroSt).resp =
      ⟨200, [("Cache-Control", "public, max-age=31536000, immutable")],
        Body.fileContent "APPJS"⟩ ∧
    LayerKind.forceHTTPS ∈
      (processReq baseEnv prodStack ⟨"GET", ["assets", "app.js"], "203.0.113.7", true⟩ zeroSt).trace ∧
    LayerKind.corsStage ∈
      (processReq baseEnv prodStack ⟨"GET", ["assets", "app.js"], "203.0.113.7", true⟩ zeroSt).trace ∧
    LayerKind.securityHeaders ∈
      (processReq baseEnv prodStack ⟨"GET", ["assets", "app.js"], "203.0.113.7", true⟩ zeroSt).trace ∧
    ¬ (idxOf LayerKind.assetsStatic prodStack < idxOf LayerKind.corsStage prodStack) := by
  decide

/-- C1 amended: in production the static asset handlers are mounted
after the HTTPS forcing, CORS, security header and limiter stages, so a
request under the assets sub-path traverses the security stages; it is
still never rate limited, because both limiter mounts are scoped to api
path prefixes that the assets sub-path cannot match, and the limiter
counters are left untouched. -/
theorem c1_amended (env : Env) (st : LimState) (client m : String) (rest : Spath) :
    idxOf LayerKind.forceHTTPS prodStack < idxOf LayerKind.assetsStatic prodStack ∧
    idxOf LayerKind.corsStage prodStack < idxOf LayerKind.assetsStatic prodStack ∧
    idxOf LayerKind.securityHeaders prodStack < idxOf LayerKind.assetsStatic prodStack ∧
    idxOf LayerKind.generalLimiter prodStack < idxOf LayerKind.assetsStatic prodStack ∧
    LayerKind.forceHTTPS ∈
      (processReq env prodStack ⟨m, "assets" :: rest, client, true⟩ st).trace ∧
    LayerKind.corsStage ∈
      (processReq env prodStack ⟨m, "assets" :: rest, client, true⟩ st).trace ∧
    LayerKind.securityHeaders ∈
      (processReq env prodStack ⟨m, "assets" :: rest, client, true⟩ st).trace ∧
    LayerKind.generalLimiter ∉
      (processReq env prodStack ⟨m, "assets" :: rest, client, true⟩ st).trace ∧
    LayerKind.adminLoginLimiter ∉
      (processReq env prodStack ⟨m, "assets" :: rest, client, true⟩ st).trace ∧
    (processReq env prodStack ⟨m, "assets" :: rest, client, true⟩ st).st = st := by
  have hct : layerMatches LayerKind.ctReportRoute ⟨m, "assets" :: rest, client, true⟩ = false := by
    simp [layerMatches]
  have hg : layerMatches LayerKind.generalLimiter ⟨m, "assets" :: rest, client, true⟩ = false := by
    simp [layerMatches, mountOf, mountMatch]
  have ha : layerMatches LayerKind.adminLoginLimiter ⟨m, "assets" :: rest, client, true⟩ = false := by
    simp [layerMatches, mountOf, mountMatch]
  have hpre := runFrom_prod_pre env ⟨m, "assets" :: rest, client, true⟩ ⟨st, [], false⟩ rfl hct
  have htr : (processReq env prodStack ⟨m, "assets" :: rest, client, true⟩ st).trace =
      LayerKind.forceHTTPS :: LayerKind.corsStage :: LayerKind.securityHeaders ::
        LayerKind.httpsSecurityHeaders :: LayerKind.parseJsonBody ::
        LayerKind.parseUrlencoded ::
        (runFrom env ⟨m, "assets" :: rest, client, true⟩ prodTail ⟨st, [], false⟩).2.2 := by
    rw [processReq_trace_eq, hpre]
  have hnol := processReq_no_limiter_trace env prodStack ⟨m, "assets" :: rest, client, true⟩ st hg ha
  refine ⟨by decide, by decide, by decide, by decide, ?_, ?_, ?_, hnol.1, hnol.2,
    processReq_st_frame env prodStack ⟨m, "assets" :: rest, client, true⟩ st hg ha⟩
  · rw [htr]; simp
  · rw [htr]; simp
  · rw [htr]; simp

/-- C9 counterexample: a request answered from the uploads mount has
passed the CORS stage, but neither rate limiter ever executed and the
general counter of the client is unchanged, contradicting the claim that
uploads traffic is rate limited. -/
theorem c9_counterexample :
    (processReq baseEnv prodStack ⟨"GET", ["uploads", "pic.png"], "198.51.100.4", true⟩ zeroSt).resp =
      ⟨200, [], Body.fileContent "PNGBYTES"⟩ ∧
    LayerKind.corsStage ∈
      (processReq baseEnv prodStack ⟨"GET", ["uploads", "pic.png"], "198.51.100.4", true⟩ zeroSt).trace ∧
    LayerKind.generalLimiter ∉
      (processReq baseEnv prodStack ⟨"GET", ["uploads", "pic.png"], "198.51.100.4", true⟩ zeroSt).trace ∧
    LayerKind.adminLoginLimiter ∉
      (processReq baseEnv prodStack ⟨"GET", ["uploads", "pic.png"], "198.51.100.4", true⟩ zeroSt).trace ∧
    (processReq baseEnv prodStack ⟨"GET", ["uploads", "pic.png"], "198.51.100.4", true⟩ zeroSt).st.general
      "198.51.100.4" = 0 := by
  decide

/-- C9 amended: the uploads static mount is installed after the security
stages and after the limiter mounts, so every uploads request is subject
to the CORS check and the security header stages; it is however not rate
limited, since both limiters are mounted on api path prefixes which
never match an uploads path, and the limiter counters stay untouched. -/
theorem c9_amended (env : Env) (st : LimState) (client m : String) (rest : Spath) :
    idxOf LayerKind.corsStage prodStack < idxOf LayerKind.uploadsStatic prodStack ∧
    idxOf LayerKind.securityHeaders prodStack < idxOf LayerKind.uploadsStatic prodStack ∧
    idxOf LayerKind.generalLimiter prodStack < idxOf LayerKind.uploadsStatic prodStack ∧
    LayerKind.forceHTTPS ∈
      (processReq env prodStack ⟨m, "uploads" :: rest, client, true⟩ st).trace ∧
    LayerKind.corsStage ∈
      (processReq env prodStack ⟨m, "uploads" :: rest, client, true⟩ st).trace ∧
    LayerKind.securityHeaders ∈
      (processReq env prodStack ⟨m, "uploads" :: rest, client, true⟩ st).trace ∧
    LayerKind.generalLimiter ∉
      (processReq env prodStack ⟨m, "uploads" :: rest, client, true⟩ st).trace ∧
    LayerKind.adminLoginLimiter ∉
      (processReq env prodStack ⟨m, "uploads" :: rest, client, true⟩ st).trace ∧
    (processReq env prodStack ⟨m, "uploads" :: rest, client, true⟩ st).st = st := by
  have hct : layerMatches LayerKind.ctReportRoute ⟨m, "uploads" :: rest, client, true⟩ = false := by
    simp [layerMatches]
  have hg : layerMatches LayerKind.generalLimiter ⟨m, "uploads" :: rest, client, true⟩ = false := by
    simp [layerMatches, mountOf, mountMatch]
  have ha : layerMatches LayerKind.adminLoginLimiter ⟨m, "uploads" :: rest, client, true⟩ = false := by
    simp [layerMatches, mountOf, mountMatch]
  have hpre := runFrom_prod_pre env ⟨m, "uploads" :: rest, client, true⟩ ⟨st, [], false⟩ rfl hct
  have htr : (processReq env prodStack ⟨m, "uploads" :: rest, client, true⟩ st).trace =
      LayerKind.forceHTTPS :: LayerKind.corsStage :: LayerKind.securityHeaders ::
        LayerKind.httpsSecurityHeaders :: LayerKind.parseJsonBody ::
        LayerKind.parseUrlencoded ::
        (runFrom env ⟨m, "uploads" :: rest, client, true⟩ prodTail ⟨st, [], false⟩).2.2 := by
    rw [processReq_trace_eq, hpre]
  have hnol := processReq_no_limiter_trace env prodStack ⟨m, "uploads" :: rest, client, true⟩ st hg ha
  refine ⟨by decide, by decide, by decide, ?_, ?_, ?_, hnol.1, hnol.2,
    processReq_st_frame env prodStack ⟨m, "uploads" :: rest, client, true⟩ st hg ha⟩
  · rw [htr]; simp
  · rw [htr]; simp
  · rw [htr]; simp

/-- The production pipeline after the general limiter. -/
def prodTail2 : List LayerKind :=
  [LayerKind.adminLoginLimiter, LayerKind.uploadsStatic, LayerKind.requestLogger,
   LayerKind.businessRoutes, LayerKind.errorHandler, LayerKind.assetsStatic,
   LayerKind.rootStatic, LayerKind.spaFallback]

theorem processReq_st_general (env : Env) (stack : List LayerKind) (req : Req) (st : LimState) :
    (processReq env stack req st).st.general =
      (runFrom env req stack ⟨st, [], false⟩).1.st.general := by
  simp only [processReq]
  split <;> rfl

theorem general_bump (env : Env) (req : Req) (st : LimState)
    (hsec : req.secure = true)
    (hapi : layerMatches LayerKind.generalLimiter req = true)
    (hct : layerMatches LayerKind.ctReportRoute req = false) :
    (processReq env prodStack req st).st.general req.client = st.general req.client + 1 := by
  have hpre := runFrom_prod_pre env req ⟨st, [], false⟩ hsec hct
  rw [processReq_st_general]
  have h1 : (runFrom env req prodStack ⟨st, [], false⟩).1 =
      (runFrom env req prodTail ⟨st, [], false⟩).1 := by rw [hpre]
  rw [h1]
  have hpt : prodTail = LayerKind.generalLimiter :: prodTail2 := rfl
  rw [hpt]
  by_cases hn : st.general req.client + 1 > generalLimiterOpts.maxHits
  · have hstep : stepLayer env req LayerKind.generalLimiter ⟨st, [], false⟩ =
        StepOut.respond
          ⟨⟨bump st.general req.client, st.admin⟩,
            limiterHeaders generalLimiterOpts (st.general req.client + 1) [], false⟩
          429 (Body.limiterMsg generalLimiterOpts.msgSuccess generalLimiterOpts.msgText) := by
      simp [stepLayer, generalLimiterStep, hn]
    rw [runFrom_respond env req LayerKind.generalLimiter prodTail2 _ _ _ _ hapi hstep]
    simp [bump]
  · have hstep : stepLayer env req LayerKind.generalLimiter ⟨st, [], false⟩ =
        StepOut.next
          ⟨⟨bump st.general req.client, st.admin⟩,
            limiterHeaders generalLimiterOpts (st.general req.client + 1) [], false⟩ := by
      simp [stepLayer, generalLimiterStep, hn]
    rw [runFrom_next env req LayerKind.generalLimiter prodTail2 _ _ hapi hstep]
    rw [runFrom_general_frame env req prodTail2 (by decide) _]
    simp [bump]

theorem general_reject (env : Env) (req : Req) (st : LimState)
    (hsec : req.secure = true)
    (hapi : layerMatches LayerKind.generalLimiter req = true)
    (hct : layerMatches LayerKind.ctReportRoute req = false)
    (hover : st.general req.client ≥ generalLimiterOpts.maxHits) :
    (processReq env prodStack req st).resp =
      ⟨429, [("RateLimit-Limit", "100"), ("RateLimit-Remaining", "0")],
        Body.limiterMsg false "Troppi tentativi. Riprova più tardi."⟩ ∧
    (processReq env prodStack req st).trace =
      [LayerKind.forceHTTPS, LayerKind.corsStage, LayerKind.securityHeaders,
       LayerKind.httpsSecurityHeaders, LayerKind.parseJsonBody,
       LayerKind.parseUrlencoded, LayerKind.generalLimiter] := by
  have hpre := runFrom_prod_pre env req ⟨st, [], false⟩ hsec hct
  have hmax : generalLimiterOpts.maxHits = 100 := rfl
  have hn : st.general req.client + 1 > generalLimiterOpts.maxHits := by omega
  have hstep : stepLayer env req LayerKind.generalLimiter ⟨st, [], false⟩ =
      StepOut.respond
        ⟨⟨bump st.general req.client, st.admin⟩,
          limiterHeaders generalLimiterOpts (st.general req.client + 1) [], false⟩
        429 (Body.limiterMsg generalLimiterOpts.msgSuccess generalLimiterOpts.msgText) := by
    simp [stepLayer, generalLimiterStep, hn]
  have hpt : prodTail = LayerKind.generalLimiter :: prodTail2 := rfl
  have hrun := runFrom_respond env req LayerKind.generalLimiter prodTail2
    ⟨st, [], false⟩ _ _ _ hapi hstep
  have hhead : limiterHeaders generalLimiterOpts (st.general req.client + 1) [] =
      [("RateLimit-Limit", "100"), ("RateLimit-Remaining", "0")] := by
    have hz : generalLimiterOpts.maxHits - (st.general req.client + 1) = 0 := by omega
    simp only [limiterHeaders]
    rw [hz]
    simp [generalLimiterOpts, setHeader]
    exact ⟨rfl, rfl⟩
  constructor
  · rw [processReq_resp_eq, hpre]
    simp only [hpt, hrun, hhead]
    simp [generalLimiterOpts]
  · rw [processReq_trace_eq, hpre]
    simp only [hpt, hrun]

theorem processN_general_count (env : Env) (req : Req)
    (hsec : req.secure = true)
    (hapi : layerMatches LayerKind.generalLimiter req = true)
    (hct : layerMatches LayerKind.ctReportRoute req = false) :
    ∀ (k : Nat) (st : LimState),
      (processN env prodStack req k st).general req.client = st.general req.client + k := by
  intro k
  induction k with
  | zero => intro st; rfl
  | succ n ih =>
    intro st
    simp only [processN]
    rw [ih, general_bump env req st hsec hapi hct]
    omega

/-- C4 counterexample: the CT report path lies under the api prefix, yet
after one hundred POSTs to it within one window the next request is
still acknowledged by the CT route, never rejected by the general
limiter, because src/server/index.ts:45 registers that route before the
limiter mount at line 81. -/
theorem c4_counterexample :
    mountMatch ["api"] (ctReq "10.0.0.1").segs = true ∧
    (processReq baseEnv prodStack (ctReq "10.0.0.1")
        (processN baseEnv prodStack (ctReq "10.0.0.1") 100 zeroSt)).resp.status = 200 ∧
    (processReq baseEnv prodStack (ctReq "10.0.0.1")
        (processN baseEnv prodStack (ctReq "10.0.0.1") 100 zeroSt)).resp.body = Body.ctAck ∧
    (processReq baseEnv prodStack (ctReq "10.0.0.1")
        (processN baseEnv prodStack (ctReq "10.0.0.1") 100 zeroSt)).resp.body ≠
      Body.limiterMsg false "Troppi tentativi. Riprova più tardi." := by
  decide

/-- C4 amended: for every client and every secure request matching the
general limiter mount under the api prefix, except the CT report route
registered before the limiters, the limiter counts each request within
one fixed window of fifteen minutes with maximum one hundred; starting
from a fresh window, after one hundred such requests the counter is one
hundred and the next request is rejected with status 429, the structured
body, standard RateLimit headers only, and never reaches the business
routes or the admin limiter. -/
theorem c4_amended (env : Env) (req : Req) (st0 : LimState)
    (hsec : req.secure = true)
    (hapi : layerMatches LayerKind.generalLimiter req = true)
    (hct : layerMatches LayerKind.ctReportRoute req = false)
    (h0 : st0.general req.client = 0) :
    generalLimiterOpts.maxHits = 100 ∧
    generalLimiterOpts.windowMs = 15 * 60 * 1000 ∧
    generalLimiterOpts.standardHeaders = true ∧
    generalLimiterOpts.legacyHeaders = false ∧
    (processN env prodStack req 100 st0).general req.client = 100 ∧
    (processReq env prodStack req (processN env prodStack req 100 st0)).resp =
      ⟨429, [("RateLimit-Limit", "100"), ("RateLimit-Remaining", "0")],
        Body.limiterMsg false "Troppi tentativi. Riprova più tardi."⟩ ∧
    LayerKind.businessRoutes ∉
      (processReq env prodStack req (processN env prodStack req 100 st0)).trace ∧
    LayerKind.adminLoginLimiter ∉
      (processReq env prodStack req (processN env prodStack req 100 st0)).trace := by
  have hcount : (processN env prodStack req 100 st0).general req.client = 100 := by
    rw [processN_general_count env req hsec hapi hct 100 st0, h0]
  have hrej := general_reject env req (processN env prodStack req 100 st0) hsec hapi hct
    (by rw [hcount]; decide)
  refine ⟨rfl, rfl, rfl, rfl, hcount, hrej.1, ?_, ?_⟩
  · rw [hrej.2]; decide
  · rw [hrej.2]; decide

set_option maxRecDepth 8000 in
/-- Witness for the amended C4 theorem at a concrete client and path. -/
theorem c4_amended_witness :
    (processN baseEnv prodStack ⟨"GET", ["api", "data"], "192.0.2.1", true⟩ 100 zeroSt).general
        "192.0.2.1" = 100 ∧
    (processReq baseEnv prodStack ⟨"GET", ["api", "data"], "192.0.2.1", true⟩
        (processN baseEnv prodStack ⟨"GET", ["api", "data"], "192.0.2.1", true⟩ 100 zeroSt)).resp =
      ⟨429, [("RateLimit-Limit", "100"), ("RateLimit-Remaining", "0")],
        Body.limiterMsg false "Troppi tentativi. Riprova più tardi."⟩ :=
  ⟨(c4_amended baseEnv ⟨"GET", ["api", "data"], "192.0.2.1", true⟩ zeroSt rfl rfl rfl
      rfl).2.2.2.2.1,
   (c4_amended baseEnv ⟨"GET", ["api", "data"], "192.0.2.1", true⟩ zeroSt rfl rfl rfl
      rfl).2.2.2.2.2.1⟩

theorem runFrom_business_head (env : Env) (req : Req) (L : List LayerKind) (c : Ctx) :
    ∃ t, (runFrom env req (LayerKind.businessRoutes :: L) c).2.2 =
      LayerKind.businessRoutes :: t := by
  rcases hb : env.business req with _ | b
  · have hstep : stepLayer env req LayerKind.businessRoutes c = StepOut.next c := by
      simp [stepLayer, hb]
    rw [runFrom_next env req LayerKind.businessRoutes L c c rfl hstep]
    exact ⟨_, rfl⟩
  · cases b with
    | respond s bd =>
      have hstep : stepLayer env req LayerKind.businessRoutes c = StepOut.respond c s bd := by
        simp [stepLayer, hb]
      rw [runFrom_respond env req LayerKind.businessRoutes L c c s bd rfl hstep]
      exact ⟨[], rfl⟩
    | raise e =>
      have hstep : stepLayer env req LayerKind.businessRoutes c = StepOut.err c e := by
        simp [stepLayer, hb]
      rw [runFrom_err env req LayerKind.businessRoutes L c c e rfl hstep]
      exact ⟨_, rfl⟩

/-- C5 counterexample: on a login request that both limiters allow, the
general limiter executes strictly before the admin login limiter, and it
also precedes it in the installation order, contradicting the claimed
admin-first evaluation. -/
theorem c5_counterexample :
    LayerKind.generalLimiter ∈
      (processReq { baseEnv with business := fun _ => some (BizAct.respond 401 (Body.business "bad-credentials")) }
        prodStack ⟨"POST", ["api", "admin", "login"], "9.9.9.9", true⟩ zeroSt).trace ∧
    LayerKind.adminLoginLimiter ∈
      (processReq { baseEnv with business := fun _ => some (BizAct.respond 401 (Body.business "bad-credentials")) }
        prodStack ⟨"POST", ["api", "admin", "login"], "9.9.9.9", true⟩ zeroSt).trace ∧
    ¬ (idxOf LayerKind.adminLoginLimiter
          (processReq { baseEnv with business := fun _ => some (BizAct.respond 401 (Body.business "bad-credentials")) }
            prodStack ⟨"POST", ["api", "admin", "login"], "9.9.9.9", true⟩ zeroSt).trace <
        idxOf LayerKind.generalLimiter
          (processReq { baseEnv with business := fun _ => some (BizAct.respond 401 (Body.business "bad-credentials")) }
            prodStack ⟨"POST", ["api", "admin", "login"], "9.9.9.9", true⟩ zeroSt).trace) ∧
    ¬ (idxOf LayerKind.adminLoginLimiter prodStack < idxOf LayerKind.generalLimiter prodStack) := by
  decide

theorem adminReq_matches (client m : String) :
    layerMatches LayerKind.ctReportRoute ⟨m, ["api", "admin", "login"], client, true⟩ = false := by
  simp [layerMatches]

/-- C5 amended: on the admin login path the general limiter (mounted
first, src/server/index.ts:81) is evaluated strictly before the admin
login limiter (line 82); both limiters independently gate the route, so
the request is rejected whenever either counter is over its maximum, and
when both allow it the request reaches the business routes having passed
the general limiter before the admin one. -/
theorem c5_amended (env : Env) (st : LimState) (client m : String) :
    idxOf LayerKind.generalLimiter prodStack < idxOf LayerKind.adminLoginLimiter prodStack ∧
    (st.general client ≥ 100 →
      (processReq env prodStack ⟨m, ["api", "admin", "login"], client, true⟩ st).resp =
        ⟨429, [("RateLimit-Limit", "100"), ("RateLimit-Remaining", "0")],
          Body.limiterMsg false "Troppi tentativi. Riprova più tardi."⟩ ∧
      LayerKind.adminLoginLimiter ∉
        (processReq env prodStack ⟨m, ["api", "admin", "login"], client, true⟩ st).trace ∧
      LayerKind.businessRoutes ∉
        (processReq env prodStack ⟨m, ["api", "admin", "login"], client, true⟩ st).trace) ∧
    (st.general client < 100 → st.admin client ≥ 5 →
      (processReq env prodStack ⟨m, ["api", "admin", "login"], client, true⟩ st).resp =
        ⟨429, [("RateLimit-Limit", "5"), ("RateLimit-Remaining", "0")],
          Body.limiterMsg false "Troppi tentativi di login. Riprova tra 15 minuti."⟩ ∧
      LayerKind.generalLimiter ∈
        (processReq env prodStack ⟨m, ["api", "admin", "login"], client, true⟩ st).trace ∧
      LayerKind.businessRoutes ∉
        (processReq env prodStack ⟨m, ["api", "admin", "login"], client, true⟩ st).trace) ∧
    (st.general client < 100 → st.admin client < 5 →
      LayerKind.generalLimiter ∈
        (processReq env prodStack ⟨m, ["api", "admin", "login"], client, true⟩ st).trace ∧
      LayerKind.adminLoginLimiter ∈
        (processReq env prodStack ⟨m, ["api", "admin", "login"], client, true⟩ st).trace ∧
      idxOf LayerKind.generalLimiter
          (processReq env prodStack ⟨m, ["api", "admin", "login"], client, true⟩ st).trace <
        idxOf LayerKind.adminLoginLimiter
          (processReq env prodStack ⟨m, ["api", "admin", "login"], client, true⟩ st).trace ∧
      LayerKind.businessRoutes ∈
        (processReq env prodStack ⟨m, ["api", "admin", "login"], client, true⟩ st).trace) := by
  have hct := adminReq_matches client m
  have hapi : layerMatches LayerKind.generalLimiter
      ⟨m, ["api", "admin", "login"], client, true⟩ = true := rfl
  have hadm : layerMatches LayerKind.adminLoginLimiter
      ⟨m, ["api", "admin", "login"], client, true⟩ = true := rfl
  have hmaxG : generalLimiterOpts.maxHits = 100 := rfl
  have hmaxA : adminLoginLimiterOpts.maxHits = 5 := rfl
  refine ⟨by decide, ?_, ?_, ?_⟩
  · intro hg
    have hrej := general_reject env ⟨m, ["api", "admin", "login"], client, true⟩ st rfl hapi hct
      (by show st.general client ≥ generalLimiterOpts.maxHits; omega)
    exact ⟨hrej.1, by rw [hrej.2]; decide, by rw [hrej.2]; decide⟩
  · intro hg ha
    have hpre := runFrom_prod_pre env ⟨m, ["api", "admin", "login"], client, true⟩
      ⟨st, [], false⟩ rfl hct
    have hn1 : ¬ (st.general client + 1 > generalLimiterOpts.maxHits) := by omega
    have hstep1 : stepLayer env ⟨m, ["api", "admin", "login"], client, true⟩
        LayerKind.generalLimiter ⟨st, [], false⟩ =
        StepOut.next
          ⟨⟨bump st.general client, st.admin⟩,
            limiterHeaders generalLimiterOpts (st.general client + 1) [], false⟩ := by
      simp [stepLayer, generalLimiterStep, hn1]
    have hn2 : st.admin client + 1 > adminLoginLimiterOpts.maxHits := by omega
    have hstep2 : stepLayer env ⟨m, ["api", "admin", "login"], client, true⟩
        LayerKind.adminLoginLimiter
        ⟨⟨bump st.general client, st.admin⟩,
          limiterHeaders generalLimiterOpts (st.general client + 1) [], false⟩ =
        StepOut.respond
          ⟨⟨bump st.general client, bump st.admin client⟩,
            limiterHeaders adminLoginLimiterOpts (st.admin client + 1)
              (limiterHeaders generalLimiterOpts (st.general client + 1) []), true⟩
          429 (Body.limiterMsg adminLoginLimiterOpts.msgSuccess adminLoginLimiterOpts.msgText) := by
      simp [stepLayer, adminLimiterStep, hn2]
    have hh1 : limiterHeaders generalLimiterOpts (st.general client + 1) [] =
        [("RateLimit-Limit", "100"),
         ("RateLimit-Remaining", toString (100 - (st.general client + 1)))] := by
      simp [limiterHeaders, generalLimiterOpts, setHeader]
      rfl
    have hz : adminLoginLimiterOpts.maxHits - (st.admin client + 1) = 0 := by omega
    have hh2 : limiterHeaders adminLoginLimiterOpts (st.admin client + 1)
        (limiterHeaders generalLimiterOpts (st.general client + 1) []) =
        [("RateLimit-Limit", "5"), ("RateLimit-Remaining", "0")] := by
      rw [hh1]
      simp only [limiterHeaders]
      rw [hz]
      simp [adminLoginLimiterOpts, setHeader]
      exact ⟨rfl, rfl⟩
    have hrun : runFrom env ⟨m, ["api", "admin", "login"], client, true⟩ prodTail
        ⟨st, [], false⟩ =
        (⟨⟨bump st.general client, bump st.admin client⟩,
            limiterHeaders adminLoginLimiterOpts (st.admin client + 1)
              (limiterHeaders generalLimiterOpts (st.general client + 1) []), true⟩,
          ⟨429,
            limiterHeaders adminLoginLimiterOpts (st.admin client + 1)
              (limiterHeaders generalLimiterOpts (st.general client + 1) []),
            Body.limiterMsg adminLoginLimiterOpts.msgSuccess adminLoginLimiterOpts.msgText⟩,
          [LayerKind.generalLimiter, LayerKind.adminLoginLimiter]) := by
      have h1 := runFrom_next env ⟨m, ["api", "admin", "login"], client, true⟩
        LayerKind.generalLimiter prodTail2 ⟨st, [], false⟩ _ hapi hstep1
      rw [show prodTail = LayerKind.generalLimiter :: prodTail2 from rfl, h1]
      have h2 := runFrom_respond env ⟨m, ["api", "admin", "login"], client, true⟩
        LayerKind.adminLoginLimiter
        [LayerKind.uploadsStatic, LayerKind.requestLogger, LayerKind.businessRoutes,
         LayerKind.errorHandler, LayerKind.assetsStatic, LayerKind.rootStatic,
         LayerKind.spaFallback] _ _ _ _ hadm hstep2
      rw [show prodTail2 = LayerKind.adminLoginLimiter ::
        [LayerKind.uploadsStatic, LayerKind.requestLogger, LayerKind.businessRoutes,
         LayerKind.errorHandler, LayerKind.assetsStatic, LayerKind.rootStatic,
         LayerKind.spaFallback] from rfl, h2]
    refine ⟨?_, ?_, ?_⟩
    · rw [processReq_resp_eq, hpre]
      simp only [hrun, hh2]
      simp [adminLoginLimiterOpts]
    · rw [processReq_trace_eq, hpre]
      simp only [hrun]
      simp
    · rw [processReq_trace_eq, hpre]
      simp only [hrun]
      decide
  · intro hg ha
    have hpre := runFrom_prod_pre env ⟨m, ["api", "admin", "login"], client, true⟩
      ⟨st, [], false⟩ rfl hct
    have hn1 : ¬ (st.general client + 1 > generalLimiterOpts.maxHits) := by omega
    have hstep1 : stepLayer env ⟨m, ["api", "admin", "login"], client, true⟩
        LayerKind.generalLimiter ⟨st, [], false⟩ =
        StepOut.next
          ⟨⟨bump st.general client, st.admin⟩,
            limiterHeaders generalLimiterOpts (st.general client + 1) [], false⟩ := by
      simp [stepLayer, generalLimiterStep, hn1]
    have hn2 : ¬ (st.admin client + 1 > adminLoginLimiterOpts.maxHits) := by omega
    have hstep2 : stepLayer env ⟨m, ["api", "admin", "login"], client, true⟩
        LayerKind.adminLoginLimiter
        ⟨⟨bump st.general client, st.admin⟩,
          limiterHeaders generalLimiterOpts (st.general client + 1) [], false⟩ =
        StepOut.next
          ⟨⟨bump st.general client, bump st.admin client⟩,
            limiterHeaders adminLoginLimiterOpts (st.admin client + 1)
              (limiterHeaders generalLimiterOpts (st.general client + 1) []), true⟩ := by
      simp [stepLayer, adminLimiterStep, hn2]
    obtain ⟨t, ht⟩ := runFrom_business_head env ⟨m, ["api", "admin", "login"], client, true⟩
      [LayerKind.errorHandler, LayerKind.assetsStatic, LayerKind.rootStatic,
       LayerKind.spaFallback]
      ⟨⟨bump st.general client, bump st.admin client⟩,
        limiterHeaders adminLoginLimiterOpts (st.admin client + 1)
          (limiterHeaders generalLimiterOpts (st.general client + 1) []), true⟩
    have htr : (processReq env prodStack ⟨m, ["api", "admin", "login"], client, true⟩ st).trace =
        LayerKind.forceHTTPS :: LayerKind.corsStage :: LayerKind.securityHeaders ::
          LayerKind.httpsSecurityHeaders :: LayerKind.parseJsonBody ::
          LayerKind.parseUrlencoded :: LayerKind.generalLimiter ::
          LayerKind.adminLoginLimiter :: LayerKind.requestLogger ::
          LayerKind.businessRoutes :: t := by
      rw [processReq_trace_eq, hpre]
      have h1 := runFrom_next env ⟨m, ["api", "admin", "login"], client, true⟩
        LayerKind.generalLimiter prodTail2 ⟨st, [], false⟩ _ hapi hstep1
      rw [show prodTail = LayerKind.generalLimiter :: prodTail2 from rfl, h1]
      have h2 := runFrom_next env ⟨m, ["api", "admin", "login"], client, true⟩
        LayerKind.adminLoginLimiter
        [LayerKind.uploadsStatic, LayerKind.requestLogger, LayerKind.businessRoutes,
         LayerKind.errorHandler, LayerKind.assetsStatic, LayerKind.rootStatic,
         LayerKind.spaFallback] _ _ hadm hstep2
      rw [show prodTail2 = LayerKind.adminLoginLimiter ::
        [LayerKind.uploadsStatic, LayerKind.requestLogger, LayerKind.businessRoutes,
         LayerKind.errorHandler, LayerKind.assetsStatic, LayerKind.rootStatic,
         LayerKind.spaFallback] from rfl, h2]
      rw [runFrom_skip env ⟨m, ["api", "admin", "login"], client, true⟩
        LayerKind.uploadsStatic _ _ rfl]
      rw [runFrom_next env ⟨m, ["api", "admin", "login"], client, true⟩
        LayerKind.requestLogger _ _ _ rfl rfl]
      rw [ht]
    refine ⟨?_, ?_, ?_, ?_⟩ <;> rw [htr] <;> simp [idxOf]

/-- Witness for the amended C5 theorem: with a spent admin counter and a
fresh general counter, the login request is rejected by the admin
limiter after passing the general one. -/
theorem c5_amended_witness :
    (processReq baseEnv prodStack ⟨"POST", ["api", "admin", "login"], "9.9.9.9", true⟩
        ⟨fun _ => 0, fun _ => 5⟩).resp =
      ⟨429, [("RateLimit-Limit", "5"), ("RateLimit-Remaining", "0")],
        Body.limiterMsg false "Troppi tentativi di login. Riprova tra 15 minuti."⟩ :=
  ((c5_amended baseEnv ⟨fun _ => 0, fun _ => 5⟩ "9.9.9.9" "POST").2.2.1
    (by decide) (by decide)).1

/-- C6 counterexample: in development the last installed layer is the
dev catch-all, not the terminal error handler, and a template read
failure produces the framework default error response while the terminal
handler never executes. -/
theorem c6_counterexample :
    devStack.getLast? = some LayerKind.devCatchAll ∧
    some LayerKind.devCatchAll ≠ some LayerKind.errorHandler ∧
    (processReq { baseEnv with templateRead := Except.error ⟨some 500, none, some "ENOENT"⟩ }
        devStack ⟨"GET", ["hello"], "2.2.2.2", true⟩ zeroSt).resp =
      ⟨500, [], Body.defaultError⟩ ∧
    LayerKind.errorHandler ∉
      (processReq { baseEnv with templateRead := Except.error ⟨some 500, none, some "ENOENT"⟩ }
        devStack ⟨"GET", ["hello"], "2.2.2.2", true⟩ zeroSt).trace ∧
    LayerKind.devCatchAll ∈
      (processReq { baseEnv with templateRead := Except.error ⟨some 500, none, some "ENOENT"⟩ }
        devStack ⟨"GET", ["hello"], "2.2.2.2", true⟩ zeroSt).trace := by
  decide

/-- C6 amended: the terminal error handler is installed after the
business routes but before the development asset branch, so it is not
the last middleware; a template read or transform failure in the dev
catch-all is forwarded with next, and since no error middleware follows
that point in the stack the framework default handler answers with the
error status, the terminal handler never running. -/
theorem c6_amended (env : Env) (st : LimState) (client m s0 : String) (rest : Spath)
    (sec : Bool) (e : JsErr)
    (h1 : s0 ≠ "api") (h2 : s0 ≠ "uploads")
    (hv : env.viteMw ⟨m, s0 :: rest, client, sec⟩ = none)
    (hb : env.business ⟨m, s0 :: rest, client, sec⟩ = none) :
    (devStack.getLast? = some LayerKind.devCatchAll ∧
      idxOf LayerKind.errorHandler devStack < idxOf LayerKind.viteMiddlewares devStack ∧
      idxOf LayerKind.errorHandler devStack < idxOf LayerKind.devCatchAll devStack) ∧
    (env.templateRead = Except.error e →
      (processReq env devStack ⟨m, s0 :: rest, client, sec⟩ st).resp =
        ⟨errStatus e, [], Body.defaultError⟩ ∧
      LayerKind.errorHandler ∉
        (processReq env devStack ⟨m, s0 :: rest, client, sec⟩ st).trace ∧
      LayerKind.devCatchAll ∈
        (processReq env devStack ⟨m, s0 :: rest, client, sec⟩ st).trace) ∧
    (∀ t, env.templateRead = Except.ok t →
      env.transform (pathStr (s0 :: rest)) (cacheBust env.nanoidv t) = Except.error e →
      (processReq env devStack ⟨m, s0 :: rest, client, sec⟩ st).resp =
        ⟨errStatus e, [], Body.defaultError⟩ ∧
      LayerKind.errorHandler ∉
        (processReq env devStack ⟨m, s0 :: rest, client, sec⟩ st).trace ∧
      LayerKind.devCatchAll ∈
        (processReq env devStack ⟨m, s0 :: rest, client, sec⟩ st).trace) := by
  have h1s : "api" ≠ s0 := Ne.symm h1
  have h2s : "uploads" ≠ s0 := Ne.symm h2
  have hct : layerMatches LayerKind.ctReportRoute ⟨m, s0 :: rest, client, sec⟩ = false := by
    simp [layerMatches, h1]
  have hg : layerMatches LayerKind.generalLimiter ⟨m, s0 :: rest, client, sec⟩ = false := by
    simp [layerMatches, mountOf, mountMatch, h1s]
  have ha : layerMatches LayerKind.adminLoginLimiter ⟨m, s0 :: rest, client, sec⟩ = false := by
    simp [layerMatches, mountOf, mountMatch, h1s]
  have hu : layerMatches LayerKind.uploadsStatic ⟨m, s0 :: rest, client, sec⟩ = false := by
    simp [layerMatches, mountOf, mountMatch, h2s]
  have hvstep : stepLayer env ⟨m, s0 :: rest, client, sec⟩ LayerKind.viteMiddlewares
      ⟨st, [], false⟩ = StepOut.next ⟨st, [], false⟩ := by
    simp [stepLayer, hv]
  have hbstep : stepLayer env ⟨m, s0 :: rest, client, sec⟩ LayerKind.businessRoutes
      ⟨st, [], false⟩ = StepOut.next ⟨st, [], false⟩ := by
    simp [stepLayer, hb]
  have hpre := runFrom_dev_pre env ⟨m, s0 :: rest, client, sec⟩ ⟨st, [], false⟩ hct
  have hchain : ∀ hcstep : stepLayer env ⟨m, s0 :: rest, client, sec⟩ LayerKind.devCatchAll
      ⟨st, [], false⟩ = StepOut.err ⟨st, [], false⟩ e,
      runFrom env ⟨m, s0 :: rest, client, sec⟩ devTail ⟨st, [], false⟩ =
        (⟨st, [], false⟩, ⟨errStatus e, [], Body.defaultError⟩,
          [LayerKind.requestLogger, LayerKind.businessRoutes,
           LayerKind.viteMiddlewares, LayerKind.devCatchAll]) := by
    intro hcstep
    rw [show devTail = LayerKind.generalLimiter :: LayerKind.adminLoginLimiter ::
      LayerKind.uploadsStatic :: LayerKind.requestLogger :: LayerKind.businessRoutes ::
      LayerKind.errorHandler :: LayerKind.viteMiddlewares :: [LayerKind.devCatchAll] from rfl]
    rw [runFrom_skip env _ LayerKind.generalLimiter _ _ hg,
      runFrom_skip env _ LayerKind.adminLoginLimiter _ _ ha,
      runFrom_skip env _ LayerKind.uploadsStatic _ _ hu,
      runFrom_next env _ LayerKind.requestLogger _ _ _ rfl rfl,
      runFrom_next env _ LayerKind.businessRoutes _ _ _ rfl hbstep,
      runFrom_skip env _ LayerKind.errorHandler _ _ rfl,
      runFrom_next env _ LayerKind.viteMiddlewares _ _ _ rfl hvstep,
      runFrom_err env _ LayerKind.devCatchAll [] _ _ e rfl hcstep]
    rfl
  refine ⟨⟨rfl, by decide, by decide⟩, ?_, ?_⟩
  · intro hterr
    have hcstep : stepLayer env ⟨m, s0 :: rest, client, sec⟩ LayerKind.devCatchAll
        ⟨st, [], false⟩ = StepOut.err ⟨st, [], false⟩ e := by
      simp [stepLayer, hterr]
    have hrun := hchain hcstep
    refine ⟨?_, ?_, ?_⟩
    · rw [processReq_resp_eq, hpre]
      simp only [hrun]
    · rw [processReq_trace_eq, hpre]
      simp only [hrun]
      decide
    · rw [processReq_trace_eq, hpre]
      simp only [hrun]
      simp
  · intro t htok htr
    have hcstep : stepLayer env ⟨m, s0 :: rest, client, sec⟩ LayerKind.devCatchAll
        ⟨st, [], false⟩ = StepOut.err ⟨st, [], false⟩ e := by
      simp [stepLayer, htok, htr]
    have hrun := hchain hcstep
    refine ⟨?_, ?_, ?_⟩
    · rw [processReq_resp_eq, hpre]
      simp only [hrun]
    · rw [processReq_trace_eq, hpre]
      simp only [hrun]
      decide
    · rw [processReq_trace_eq, hpre]
      simp only [hrun]
      simp

/-- Witness for the amended C6 theorem: a concrete development request
whose template read fails is answered by the default handler with the
error status and the terminal handler never runs. -/
theorem c6_amended_witness :
    (processReq { baseEnv with templateRead := Except.error ⟨some 500, none, some "ENOENT"⟩ }
        devStack ⟨"GET", "hello" :: [], "2.2.2.2", true⟩ zeroSt).resp =
      ⟨errStatus ⟨some 500, none, some "ENOENT"⟩, [], Body.defaultError⟩ ∧
    LayerKind.errorHandler ∉
      (processReq { baseEnv with templateRead := Except.error ⟨some 500, none, some "ENOENT"⟩ }
        devStack ⟨"GET", "hello" :: [], "2.2.2.2", true⟩ zeroSt).trace :=
  ⟨((c6_amended { baseEnv with templateRead := Except.error ⟨some 500, none, some "ENOENT"⟩ }
        zeroSt "2.2.2.2" "GET" "hello" [] true ⟨some 500, none, some "ENOENT"⟩
        (by decide) (by decide) rfl rfl).2.1 rfl).1,
   ((c6_amended { baseEnv with templateRead := Except.error ⟨some 500, none, some "ENOENT"⟩ }
        zeroSt "2.2.2.2" "GET" "hello" [] true ⟨some 500, none, some "ENOENT"⟩
        (by decide) (by decide) rfl rfl).2.1 rfl).2.1⟩

/-- C7 counterexample: with response headers already sent, the terminal
error handler of src/server/index.ts:130-142 still attempts to write the
error response instead of only logging: it contains no headersSent
check. -/
theorem c7_counterexample :
    errorHandlerAction ⟨none, none, none⟩ true =
      EHAction.respond 500 "Internal Server Error" ∧
    errorHandlerAction ⟨none, none, none⟩ true ≠ EHAction.logOnly := by
  decide

/-- C7 amended: the terminal error handler always responds with the JSON
body carrying the error message or the fixed fallback, using the status
field, else the statusCode field, else 500; it never rethrows and never
merely logs: it does not consult whether response headers were already
sent, attempting the write in every case. Through the pipeline, an error
raised by a business route is answered by exactly this handler. -/
theorem c7_amended :
    (∀ (e : JsErr) (hs : Bool),
      errorHandlerAction e hs = EHAction.respond (errStatus e) (errMessage e) ∧
      errorHandlerAction e hs ≠ EHAction.logOnly) ∧
    (∀ (s : Nat) (sc : Option Nat) (msg : Option String),
      errStatus ⟨some s, sc, msg⟩ = s) ∧
    (∀ (sc : Nat) (msg : Option String), errStatus ⟨none, some sc, msg⟩ = sc) ∧
    (∀ (msg : Option String), errStatus ⟨none, none, msg⟩ = 500) ∧
    (∀ (s sc : Option Nat) (msg : String), errMessage ⟨s, sc, some msg⟩ = msg) ∧
    (∀ (s sc : Option Nat), errMessage ⟨s, sc, none⟩ = "Internal Server Error") ∧
    (∀ (env : Env) (st : LimState) (client m s0 : String) (rest : Spath) (e : JsErr),
      s0 ≠ "api" → s0 ≠ "uploads" →
      env.business ⟨m, s0 :: rest, client, true⟩ = some (BizAct.raise e) →
      (processReq env prodStack ⟨m, s0 :: rest, client, true⟩ st).resp =
        ⟨errStatus e, [], Body.errorJson (errMessage e)⟩ ∧
      LayerKind.errorHandler ∈
        (processReq env prodStack ⟨m, s0 :: rest, client, true⟩ st).trace) := by
  refine ⟨fun e hs => ⟨rfl, by simp [errorHandlerAction]⟩,
    fun s sc msg => rfl, fun sc msg => rfl, fun msg => rfl,
    fun s sc msg => rfl, fun s sc => rfl, ?_⟩
  intro env st client m s0 rest e h1 h2 hb
  have h1s : "api" ≠ s0 := Ne.symm h1
  have h2s : "uploads" ≠ s0 := Ne.symm h2
  have hct : layerMatches LayerKind.ctReportRoute ⟨m, s0 :: rest, client, true⟩ = false := by
    simp [layerMatches, h1]
  have hg : layerMatches LayerKind.generalLimiter ⟨m, s0 :: rest, client, true⟩ = false := by
    simp [layerMatches, mountOf, mountMatch, h1s]
  have ha : layerMatches LayerKind.adminLoginLimiter ⟨m, s0 :: rest, client, true⟩ = false := by
    simp [layerMatches, mountOf, mountMatch, h1s]
  have hu : layerMatches LayerKind.uploadsStatic ⟨m, s0 :: rest, client, true⟩ = false := by
    simp [layerMatches, mountOf, mountMatch, h2s]
  have hbstep : stepLayer env ⟨m, s0 :: rest, client, true⟩ LayerKind.businessRoutes
      ⟨st, [], false⟩ = StepOut.err ⟨st, [], false⟩ e := by
    simp [stepLayer, hb]
  have hpre := runFrom_prod_pre env ⟨m, s0 :: rest, client, true⟩ ⟨st, [], false⟩ rfl hct
  have hrun : runFrom env ⟨m, s0 :: rest, client, true⟩ prodTail ⟨st, [], false⟩ =
      (⟨st, [], false⟩, ⟨errStatus e, [], Body.errorJson (errMessage e)⟩,
        [LayerKind.requestLogger, LayerKind.businessRoutes, LayerKind.errorHandler]) := by
    rw [show prodTail = LayerKind.generalLimiter :: LayerKind.adminLoginLimiter ::
      LayerKind.uploadsStatic :: LayerKind.requestLogger :: LayerKind.businessRoutes ::
      [LayerKind.errorHandler, LayerKind.assetsStatic, LayerKind.rootStatic,
       LayerKind.spaFallback] from rfl]
    rw [runFrom_skip env _ LayerKind.generalLimiter _ _ hg,
      runFrom_skip env _ LayerKind.adminLoginLimiter _ _ ha,
      runFrom_skip env _ LayerKind.uploadsStatic _ _ hu,
      runFrom_next env _ LayerKind.requestLogger _ _ _ rfl rfl,
      runFrom_err env _ LayerKind.businessRoutes _ _ _ e rfl hbstep]
    rfl
  refine ⟨?_, ?_⟩
  · rw [processReq_resp_eq, hpre]
    simp only [hrun]
  · rw [processReq_trace_eq, hpre]
    simp only [hrun]
    simp

/-- Witness for the amended C7 theorem: a concrete teapot error raised
by a business route is answered with its own status and message by the
terminal handler, which responds even with headers already sent. -/
theorem c7_amended_witness :
    errorHandlerAction ⟨some 418, none, some "teapot"⟩ true =
      EHAction.respond (errStatus ⟨some 418, none, some "teapot"⟩)
        (errMessage ⟨some 418, none, some "teapot"⟩) ∧
    (processReq { baseEnv with business := fun _ => some (BizAct.raise ⟨some 418, none, some "teapot"⟩) }
        prodStack ⟨"GET", "boom" :: [], "3.3.3.3", true⟩ zeroSt).resp =
      ⟨errStatus ⟨some 418, none, some "teapot"⟩, [],
        Body.errorJson (errMessage ⟨some 418, none, some "teapot"⟩)⟩ :=
  ⟨(c7_amended.1 ⟨some 418, none, some "teapot"⟩ true).1,
   (c7_amended.2.2.2.2.2.2
      { baseEnv with business := fun _ => some (BizAct.raise ⟨some 418, none, some "teapot"⟩) }
      zeroSt "3.3.3.3" "GET" "boom" [] ⟨some 418, none, some "teapot"⟩
      (by decide) (by decide) rfl).1⟩

/-- C3: with the production static mounts of src/server/index.ts:269-284,
a file present under the assets sub-path is served byte identical with
the immutable one year cache header; a missing file under the assets
sub-path yields a true 404 through the fallthrough false error of the
assets mount, never the SPA page and never the terminal handler; and any
other path matched by no static file is answered with the entry point
HTML by the SPA catch-all instead of a 404. -/
theorem c3_static_round_trip :
    (∀ (env : Env) (st : LimState) (client : String) (rest : Spath) (content : String),
      env.business ⟨"GET", "assets" :: rest, client, true⟩ = none →
      lookupFile env.rootFiles ("assets" :: rest) = some content →
      (processReq env prodStack ⟨"GET", "assets" :: rest, client, true⟩ st).resp =
        ⟨200, [("Cache-Control", "public, max-age=31536000, immutable")],
          Body.fileContent content⟩) ∧
    (∀ (env : Env) (st : LimState) (client : String) (rest : Spath),
      env.business ⟨"GET", "assets" :: rest, client, true⟩ = none →
      lookupFile env.rootFiles ("assets" :: rest) = none →
      (processReq env prodStack ⟨"GET", "assets" :: rest, client, true⟩ st).resp =
        ⟨404, [], Body.defaultError⟩ ∧
      LayerKind.errorHandler ∉
        (processReq env prodStack ⟨"GET", "assets" :: rest, client, true⟩ st).trace ∧
      LayerKind.spaFallback ∉
        (processReq env prodStack ⟨"GET", "assets" :: rest, client, true⟩ st).trace) ∧
    (∀ (env : Env) (st : LimState) (client s0 : String) (rest : Spath) (idx : String),
      s0 ≠ "api" → s0 ≠ "uploads" → s0 ≠ "assets" →
      env.business ⟨"GET", s0 :: rest, client, true⟩ = none →
      lookupFile env.rootFiles (s0 :: rest) = none →
      lookupFile env.rootFiles ["index.html"] = some idx →
      (processReq env prodStack ⟨"GET", s0 :: rest, client, true⟩ st).resp =
        ⟨200, [], Body.fileContent idx⟩) := by
  refine ⟨?_, ?_, ?_⟩
  · intro env st client rest content hb hf
    have hbstep : stepLayer env ⟨"GET", "assets" :: rest, client, true⟩
        LayerKind.businessRoutes ⟨st, [], false⟩ = StepOut.next ⟨st, [], false⟩ := by
      simp [stepLayer, hb]
    have hastep : stepLayer env ⟨"GET", "assets" :: rest, client, true⟩
        LayerKind.assetsStatic ⟨st, [], false⟩ =
        StepOut.respond
          ⟨st, [("Cache-Control", "public, max-age=31536000, immutable")], false⟩
          200 (Body.fileContent content) := by
      simp [stepLayer, hf, setHeader]
    have hpre := runFrom_prod_pre env ⟨"GET", "assets" :: rest, client, true⟩
      ⟨st, [], false⟩ rfl (by simp [layerMatches])
    have hg : layerMatches LayerKind.generalLimiter
        ⟨"GET", "assets" :: rest, client, true⟩ = false := rfl
    have hal : layerMatches LayerKind.adminLoginLimiter
        ⟨"GET", "assets" :: rest, client, true⟩ = false := rfl
    have hup : layerMatches LayerKind.uploadsStatic
        ⟨"GET", "assets" :: rest, client, true⟩ = false := rfl
    have hasm : layerMatches LayerKind.assetsStatic
        ⟨"GET", "assets" :: rest, client, true⟩ = true := rfl
    rw [processReq_resp_eq, hpre]
    rw [show prodTail = LayerKind.generalLimiter :: LayerKind.adminLoginLimiter ::
      LayerKind.uploadsStatic :: LayerKind.requestLogger :: LayerKind.businessRoutes ::
      LayerKind.errorHandler :: LayerKind.assetsStatic ::
      [LayerKind.rootStatic, LayerKind.spaFallback] from rfl]
    rw [runFrom_skip env _ LayerKind.generalLimiter _ _ hg,
      runFrom_skip env _ LayerKind.adminLoginLimiter _ _ hal,
      runFrom_skip env _ LayerKind.uploadsStatic _ _ hup,
      runFrom_next env _ LayerKind.requestLogger _ _ _ rfl rfl,
      runFrom_next env _ LayerKind.businessRoutes _ _ _ rfl hbstep,
      runFrom_skip env _ LayerKind.errorHandler _ _ rfl,
      runFrom_respond env _ LayerKind.assetsStatic _ _ _ _ _ hasm hastep]
  · intro env st client rest hb hf
    have hbstep : stepLayer env ⟨"GET", "assets" :: rest, client, true⟩
        LayerKind.businessRoutes ⟨st, [], false⟩ = StepOut.next ⟨st, [], false⟩ := by
      simp [stepLayer, hb]
    have hastep : stepLayer env ⟨"GET", "assets" :: rest, client, true⟩
        LayerKind.assetsStatic ⟨st, [], false⟩ =
        StepOut.err ⟨st, [], false⟩ ⟨some 404, none, some "Not Found"⟩ := by
      simp [stepLayer, hf]
    have hpre := runFrom_prod_pre env ⟨"GET", "assets" :: rest, client, true⟩
      ⟨st, [], false⟩ rfl (by simp [layerMatches])
    have hrun : runFrom env ⟨"GET", "assets" :: rest, client, true⟩ prodTail
        ⟨st, [], false⟩ =
        (⟨st, [], false⟩, ⟨404, [], Body.defaultError⟩,
          [LayerKind.requestLogger, LayerKind.businessRoutes, LayerKind.assetsStatic]) := by
      have hg : layerMatches LayerKind.generalLimiter
          ⟨"GET", "assets" :: rest, client, true⟩ = false := rfl
      have hal : layerMatches LayerKind.adminLoginLimiter
          ⟨"GET", "assets" :: rest, client, true⟩ = false := rfl
      have hup : layerMatches LayerKind.uploadsStatic
          ⟨"GET", "assets" :: rest, client, true⟩ = false := rfl
      have hasm : layerMatches LayerKind.assetsStatic
          ⟨"GET", "assets" :: rest, client, true⟩ = true := rfl
      rw [show prodTail = LayerKind.generalLimiter :: LayerKind.adminLoginLimiter ::
        LayerKind.uploadsStatic :: LayerKind.requestLogger :: LayerKind.businessRoutes ::
        LayerKind.errorHandler :: LayerKind.assetsStatic ::
        [LayerKind.rootStatic, LayerKind.spaFallback] from rfl]
      rw [runFrom_skip env _ LayerKind.generalLimiter _ _ hg,
        runFrom_skip env _ LayerKind.adminLoginLimiter _ _ hal,
        runFrom_skip env _ LayerKind.uploadsStatic _ _ hup,
        runFrom_next env _ LayerKind.requestLogger _ _ _ rfl rfl,
        runFrom_next env _ LayerKind.businessRoutes _ _ _ rfl hbstep,
        runFrom_skip env _ LayerKind.errorHandler _ _ rfl,
        runFrom_err env _ LayerKind.assetsStatic _ _ _ _ hasm hastep]
      rfl
    refine ⟨?_, ?_, ?_⟩
    · rw [processReq_resp_eq, hpre]
      simp only [hrun]
    · rw [processReq_trace_eq, hpre]
      simp only [hrun]
      decide
    · rw [processReq_trace_eq, hpre]
      simp only [hrun]
      decide
  · intro env st client s0 rest idx h1 h2 h3 hb hroot hidx
    have h1s : "api" ≠ s0 := Ne.symm h1
    have h2s : "uploads" ≠ s0 := Ne.symm h2
    have h3s : "assets" ≠ s0 := Ne.symm h3
    have hct : layerMatches LayerKind.ctReportRoute ⟨"GET", s0 :: rest, client, true⟩ = false := by
      simp [layerMatches]
    have hg : layerMatches LayerKind.generalLimiter ⟨"GET", s0 :: rest, client, true⟩ = false := by
      simp [layerMatches, mountOf, mountMatch, h1s]
    have ha : layerMatches LayerKind.adminLoginLimiter ⟨"GET", s0 :: rest, client, true⟩ = false := by
      simp [layerMatches, mountOf, mountMatch, h1s]
    have hu : layerMatches LayerKind.uploadsStatic ⟨"GET", s0 :: rest, client, true⟩ = false := by
      simp [layerMatches, mountOf, mountMatch, h2s]
    have has : layerMatches LayerKind.assetsStatic ⟨"GET", s0 :: rest, client, true⟩ = false := by
      simp [layerMatches, mountOf, mountMatch, h3s]
    have hbstep : stepLayer env ⟨"GET", s0 :: rest, client, true⟩
        LayerKind.businessRoutes ⟨st, [], false⟩ = StepOut.next ⟨st, [], false⟩ := by
      simp [stepLayer, hb]
    have hrstep : stepLayer env ⟨"GET", s0 :: rest, client, true⟩
        LayerKind.rootStatic ⟨st, [], false⟩ = StepOut.next ⟨st, [], false⟩ := by
      simp [stepLayer, hroot]
    have hsstep : stepLayer env ⟨"GET", s0 :: rest, client, true⟩
        LayerKind.spaFallback ⟨st, [], false⟩ =
        StepOut.respond ⟨st, [], false⟩ 200 (Body.fileContent idx) := by
      simp [stepLayer, hidx]
    have hpre := runFrom_prod_pre env ⟨"GET", s0 :: rest, client, true⟩
      ⟨st, [], false⟩ rfl hct
    rw [processReq_resp_eq, hpre]
    rw [show prodTail = LayerKind.generalLimiter :: LayerKind.adminLoginLimiter ::
      LayerKind.uploadsStatic :: LayerKind.requestLogger :: LayerKind.businessRoutes ::
      LayerKind.errorHandler :: LayerKind.assetsStatic :: LayerKind.rootStatic ::
      [LayerKind.spaFallback] from rfl]
    rw [runFrom_skip env _ LayerKind.generalLimiter _ _ hg,
      runFrom_skip env _ LayerKind.adminLoginLimiter _ _ ha,
      runFrom_skip env _ LayerKind.uploadsStatic _ _ hu,
      runFrom_next env _ LayerKind.requestLogger _ _ _ rfl rfl,
      runFrom_next env _ LayerKind.businessRoutes _ _ _ rfl hbstep,
      runFrom_skip env _ LayerKind.errorHandler _ _ rfl,
      runFrom_skip env _ LayerKind.assetsStatic _ _ has,
      runFrom_next env _ LayerKind.rootStatic _ _ _ rfl hrstep,
      runFrom_respond env _ LayerKind.spaFallback _ _ _ _ _
        (show layerMatches LayerKind.spaFallback ⟨"GET", s0 :: rest, client, true⟩ = true
          from rfl) hsstep]

/-- Witness for the C3 round trip at the concrete build output of
baseEnv: the bundled asset is served immutably byte identical, the
missing asset is a 404, and an application route receives the entry
point HTML. -/
theorem c3_static_round_trip_witness :
    (processReq baseEnv prodStack ⟨"GET", ["assets", "app.js"], "8.8.8.8", true⟩ zeroSt).resp =
      ⟨200, [("Cache-Control", "public, max-age=31536000, immutable")],
        Body.fileContent "APPJS"⟩ ∧
    (processReq baseEnv prodStack ⟨"GET", ["assets", "missing.js"], "8.8.8.8", true⟩ zeroSt).resp =
      ⟨404, [], Body.defaultError⟩ ∧
    (processReq baseEnv prodStack ⟨"GET", ["chi-siamo"], "8.8.8.8", true⟩ zeroSt).resp =
      ⟨200, [], Body.fileContent "INDEXHTML"⟩ :=
  ⟨c3_static_round_trip.1 baseEnv zeroSt "8.8.8.8" ["app.js"] "APPJS" rfl rfl,
   (c3_static_round_trip.2.1 baseEnv zeroSt "8.8.8.8" ["missing.js"] rfl rfl).1,
   c3_static_round_trip.2.2 baseEnv zeroSt "8.8.8.8" "chi-siamo" [] "INDEXHTML"
     (by decide) (by decide) (by decide) rfl rfl rfl⟩

theorem find?_first {α : Type} (p : α → Bool) :
    ∀ (l : List α) (a : α), l.find? p = some a →
      ∃ l1 l2, l = l1 ++ a :: l2 ∧ p a = true ∧ ∀ x ∈ l1, p x = false := by
  intro l
  induction l with
  | nil => intro a h; simp [List.find?] at h
  | cons x xs ih =>
    intro a h
    rcases hp : p x with _ | _
    · rw [List.find?_cons_of_neg _ (by simp [hp])] at h
      obtain ⟨l1, l2, heq, hpa, hall⟩ := ih a h
      exact ⟨x :: l1, l2, by rw [heq]; rfl, hpa,
        fun y hy => by
          rcases List.mem_cons.mp hy with rfl | hy2
          · exact hp
          · exact hall y hy2⟩
    · rw [List.find?_cons_of_pos _ hp] at h
      cases h
      exact ⟨[], xs, rfl, hp, by simp⟩

/-- C2: static root resolution of the candidate-probing serveStatic
(src/server/index.ts:249-266): the FRONTEND_DIR override heads the
candidate list when set; the resolved root is the first candidate whose
index.html exists, every earlier candidate lacking it; resolution
success is exactly the existence of some candidate holding index.html;
on success the bootstrap reaches listening on the resolved root, and on
failure the thrown error is caught by the bootstrap and the process
exits with code 1, never listening. The simpler serveStatic variant of
src/server/vite.ts:84-107 likewise exits with code 1 before listen when
its single root is missing. -/
theorem c2_static_root_resolution (fsys : List Spath) (fd : Option Spath)
    (dirname cwd : Spath) (port : Nat) :
    (∀ d, fd = some d → (candidates fd dirname cwd).head? = some d) ∧
    (resolveDistPath fsys fd dirname cwd = none ↔
      ∀ p ∈ candidates fd dirname cwd, (p ++ ["index.html"]) ∉ fsys) ∧
    (∀ d, resolveDistPath fsys fd dirname cwd = some d →
      (d ++ ["index.html"]) ∈ fsys ∧
      (∃ l1 l2, candidates fd dirname cwd = l1 ++ d :: l2 ∧
        ∀ p ∈ l1, (p ++ ["index.html"]) ∉ fsys) ∧
      bootstrapProd fsys fd dirname cwd port = BootResult.listening d port) ∧
    (resolveDistPath fsys fd dirname cwd = none →
      bootstrapProd fsys fd dirname cwd port = BootResult.exitedWith 1 ∧
      ∀ d q, bootstrapProd fsys fd dirname cwd port ≠ BootResult.listening d q) ∧
    (distPathSimple fd dirname ∉ fsys →
      bootstrapProdSimple fsys fd dirname port = BootResult.exitedWith 1 ∧
      ∀ d q, bootstrapProdSimple fsys fd dirname port ≠ BootResult.listening d q) := by
  refine ⟨?_, ?_, ?_, ?_, ?_⟩
  · intro d hd
    subst hd
    rfl
  · constructor
    · intro h p hp hmem
      have := List.find?_eq_none.mp h p hp
      simp [hmem] at this
    · intro h
      apply List.find?_eq_none.mpr
      intro p hp
      simp [h p hp]
  · intro d hd
    have hp := List.find?_some hd
    have hmem : (d ++ ["index.html"]) ∈ fsys := by simpa using hp
    obtain ⟨l1, l2, heq, _, hall⟩ := find?_first _ _ _ hd
    refine ⟨hmem, ⟨l1, l2, heq, fun p hp2 => by simpa using hall p hp2⟩, ?_⟩
    simp [bootstrapProd, hd]
  · intro h
    constructor
    · simp [bootstrapProd, h]
    · intro d q
      simp [bootstrapProd, h]
  · intro h
    constructor
    · simp [bootstrapProdSimple, h]
    · intro d q
      simp [bootstrapProdSimple, h]

/-- Witness for the C2 resolution theorem: with no override and only the
conventional build output present next to the bundle, the bootstrap
resolves that directory and listens; with an empty file system it exits
with code 1. -/
theorem c2_static_root_resolution_witness :
    bootstrapProd [["app", "dist", "public", "index.html"]] none ["app", "dist"]
        ["app"] 3000 =
      BootResult.listening ["app", "dist", "public"] 3000 ∧
    bootstrapProd [] none ["app", "dist"] ["app"] 3000 = BootResult.exitedWith 1 :=
  ⟨((c2_static_root_resolution [["app", "dist", "public", "index.html"]] none
      ["app", "dist"] ["app"] 3000).2.2.1 ["app", "dist", "public"] (by decide)).2.2,
   ((c2_static_root_resolution [] none ["app", "dist"] ["app"] 3000).2.2.2.1
      (by decide)).1⟩

/-- C8: the request logger is a pure side channel. Removing the logger
layer changes neither the response nor the limiter state of any request
in either mode; the res.json wrapper forwards the body unchanged while
capturing it; the log line is truncated to at most 300 characters with a
trailing ellipsis exactly when oversized; a serialization failure is
swallowed, keeping the base line; and a log entry is emitted only for
paths whose string form starts with /api, carrying method, path, status,
duration and the captured JSON body. -/
theorem c8_logger_side_channel :
    (∀ (env : Env) (st : LimState) (req : Req),
      (processReq env prodStack req st).resp = (processReq env prodStackNoLog req st).resp ∧
      (processReq env prodStack req st).st = (processReq env prodStackNoLog req st).st) ∧
    (∀ (env : Env) (st : LimState) (req : Req),
      (processReq env devStack req st).resp = (processReq env devStackNoLog req st).resp ∧
      (processReq env devStack req st).st = (processReq env devStackNoLog req st).st) ∧
    (∀ (orig : Body → Resp) (b : Body),
      (wrapJson orig b).1 = orig b ∧ (wrapJson orig b).2 = some b) ∧
    (∀ line : String, line.length ≤ 300 → truncateLine line = line) ∧
    (∀ line : String, line.length > 300 →
      truncateLine line = (line.take 299).push '…' ∧ (truncateLine line).length = 300) ∧
    (∀ (line : String) (b : Body) (f : Body → Option String), f b = none →
      withJson line (some b) f = line) ∧
    (∀ (env : Env) (st : LimState) (req : Req),
      (strStartsWith (pathStr req.segs) "/api" = false →
        (processReq env prodStack req st).logs = []) ∧
      ((runFrom env req prodStack ⟨st, [], false⟩).2.2.contains LayerKind.requestLogger = true →
        strStartsWith (pathStr req.segs) "/api" = true →
        (processReq env prodStack req st).logs =
          [mkLogLine req.method (pathStr req.segs)
            (processReq env prodStack req st).resp.status env.durationMs
            (if isJsonBody (processReq env prodStack req st).resp.body then
              some (processReq env prodStack req st).resp.body
            else none)
            env.stringify])) := by
  refine ⟨?_, ?_, fun orig b => ⟨rfl, rfl⟩, ?_, ?_, ?_, ?_⟩
  · intro env st req
    have hps : prodStack =
        [LayerKind.forceHTTPS, LayerKind.corsStage, LayerKind.securityHeaders,
         LayerKind.httpsSecurityHeaders, LayerKind.ctReportRoute, LayerKind.parseJsonBody,
         LayerKind.parseUrlencoded, LayerKind.generalLimiter, LayerKind.adminLoginLimiter,
         LayerKind.uploadsStatic] ++ LayerKind.requestLogger ::
        [LayerKind.businessRoutes, LayerKind.errorHandler, LayerKind.assetsStatic,
         LayerKind.rootStatic, LayerKind.spaFallback] := rfl
    have hns : prodStackNoLog =
        [LayerKind.forceHTTPS, LayerKind.corsStage, LayerKind.securityHeaders,
         LayerKind.httpsSecurityHeaders, LayerKind.ctReportRoute, LayerKind.parseJsonBody,
         LayerKind.parseUrlencoded, LayerKind.generalLimiter, LayerKind.adminLoginLimiter,
         LayerKind.uploadsStatic] ++
        [LayerKind.businessRoutes, LayerKind.errorHandler, LayerKind.assetsStatic,
         LayerKind.rootStatic, LayerKind.spaFallback] := rfl
    have h := runFrom_drop env req
      [LayerKind.forceHTTPS, LayerKind.corsStage, LayerKind.securityHeaders,
       LayerKind.httpsSecurityHeaders, LayerKind.ctReportRoute, LayerKind.parseJsonBody,
       LayerKind.parseUrlencoded, LayerKind.generalLimiter, LayerKind.adminLoginLimiter,
       LayerKind.uploadsStatic]
      [LayerKind.businessRoutes, LayerKind.errorHandler, LayerKind.assetsStatic,
       LayerKind.rootStatic, LayerKind.spaFallback]
      ⟨st, [], false⟩
    constructor
    · rw [processReq_resp_eq, processReq_resp_eq, hps, hns]
      exact h.2
    · show (processReq env prodStack req st).st = (processReq env prodStackNoLog req st).st
      simp only [processReq, hps, hns]
      rw [h.1, h.2]
  · intro env st req
    have hps : devStack =
        [LayerKind.corsStage, LayerKind.securityHeaders, LayerKind.httpsSecurityHeaders,
         LayerKind.ctReportRoute, LayerKind.parseJsonBody, LayerKind.parseUrlencoded,
         LayerKind.generalLimiter, LayerKind.adminLoginLimiter, LayerKind.uploadsStatic] ++
        LayerKind.requestLogger ::
        [LayerKind.businessRoutes, LayerKind.errorHandler, LayerKind.viteMiddlewares,
         LayerKind.devCatchAll] := rfl
    have hns : devStackNoLog =
        [LayerKind.corsStage, LayerKind.securityHeaders, LayerKind.httpsSecurityHeaders,
         LayerKind.ctReportRoute, LayerKind.parseJsonBody, LayerKind.parseUrlencoded,
         LayerKind.generalLimiter, LayerKind.adminLoginLimiter, LayerKind.uploadsStatic] ++
        [LayerKind.businessRoutes, LayerKind.errorHandler, LayerKind.viteMiddlewares,
         LayerKind.devCatchAll] := rfl
    have h := runFrom_drop env req
      [LayerKind.corsStage, LayerKind.securityHeaders, LayerKind.httpsSecurityHeaders,
       LayerKind.ctReportRoute, LayerKind.parseJsonBody, LayerKind.parseUrlencoded,
       LayerKind.generalLimiter, LayerKind.adminLoginLimiter, LayerKind.uploadsStatic]
      [LayerKind.businessRoutes, LayerKind.errorHandler, LayerKind.viteMiddlewares,
       LayerKind.devCatchAll]
      ⟨st, [], false⟩
    constructor
    · rw [processReq_resp_eq, processReq_resp_eq, hps, hns]
      exact h.2
    · show (processReq env devStack req st).st = (processReq env devStackNoLog req st).st
      simp only [processReq, hps, hns]
      rw [h.1, h.2]
  · intro line h
    simp only [truncateLine]
    rw [if_neg (by omega)]
  · intro line h
    refine ⟨by simp only [truncateLine]; rw [if_pos (by omega)], ?_⟩
    have hres : truncateLine line = (line.take 299).push '…' := by
      simp only [truncateLine]; rw [if_pos (by omega)]
    rw [hres]
    have ht : line.take 299 = ⟨line.1.take 299⟩ := String.take_eq line 299
    rw [ht]
    have hd : (String.push ⟨line.1.take 299⟩ '…').length =
        (line.1.take 299 ++ ['…']).length := by
      rw [String.length, String.data_push]
    rw [hd]
    simp only [List.length_append, List.length_take, List.length_cons, List.length_nil]
    have h2 : line.1.length = line.length := rfl
    omega
  · intro line b f hf
    simp [withJson, hf]
  · intro env st req
    constructor
    · intro hnapi
      simp only [processReq]
      simp [hnapi]
    · intro hcont hapi
      have hmem : LayerKind.requestLogger ∈
          (runFrom env req prodStack ⟨st, [], false⟩).2.2 := by
        simpa using hcont
      simp only [processReq]
      simp [hmem, hapi]

/-- Witness for the C8 theorem: a short line is kept, a serialization
failure is swallowed, and a request outside the api prefix produces no
log entry. -/
theorem c8_logger_side_channel_witness :
    truncateLine "GET /api/contact 200 in 5ms" = "GET /api/contact 200 in 5ms" ∧
    withJson "GET /api/contact 200 in 5ms" (some (Body.business "t")) (fun _ => none) =
      "GET /api/contact 200 in 5ms" ∧
    (processReq baseEnv prodStack ⟨"GET", ["chi-siamo"], "4.4.4.4", true⟩ zeroSt).logs = [] :=
  ⟨c8_logger_side_channel.2.2.2.1 "GET /api/contact 200 in 5ms" (by decide),
   c8_logger_side_channel.2.2.2.2.2.1 "GET /api/contact 200 in 5ms" (Body.business "t")
     (fun _ => none) rfl,
   (c8_logger_side_channel.2.2.2.2.2.2 baseEnv zeroSt
     ⟨"GET", ["chi-siamo"], "4.4.4.4", true⟩).1 (by decide)⟩
